import Mathlib

/-!
Verification of the scene buffer packer and instanced render batcher of the
ldrawloader viewer (`src/ldraw_viewer.cpp`).

The development shallowly embeds the relevant routines:

* `computeActiveParts`, `layoutPartStep`, `rebuildSceneBuffers`
  (lines 735-892): the Active-Part Selector, Layout Planner and Buffer
  Materializer.
* `drawDebugInstance`, `drawDebugRun`, `drawDebug` (lines 894-1129): the
  Render Batcher, producing an explicit list of GL state/draw commands plus
  the trace of indices at which the per-part `DrawPart` table is indexed.
* `processUIClamp` (lines 510-602): the debug-selection clamping.
* `thinkFrame` (lines 642-728 together with the LOAD/RELOAD handlers of
  `processUI`): the per-frame invalidation logic, producing an event trace.

Machine integers of the source (`uint32_t`, `int`) are modelled as `Nat` and
`Int`; where the source performs unsigned wraparound arithmetic (the
`count - 1` clamp bounds, int-to-uint conversions) this is made explicit via
`u32ofInt`, `u32sub1` and `i32ofU32`.  The ldrawloader library and nvmath are
external collaborators: their data (parts, render parts, instances, the
4x4 float transforms) are modelled as records, with transforms over `ℚ` and
the determinant computed by explicit cofactor expansion.
-/

namespace LdrViewer

/-- The modulus `2^32` of the source's `uint32_t` arithmetic. -/
def U32MOD : Nat := 4294967296

/-- Modelled from the spec: the invalid/sentinel part id (`LDR_INVALID_ID` of
the external ldrawloader header), the all-ones `uint32_t` value. -/
def LDR_INVALID_ID : Nat := 4294967295

/-- Modelled from the spec: the loader's build-render-parts-on-load mode
(`LDR_RENDERPART_BUILD_ONLOAD` of the external ldrawloader header). -/
def LDR_RENDERPART_BUILD_ONLOAD : Nat := 1

/-- The `uint32_t` value of an `int` (two's complement conversion). -/
def u32ofInt (x : Int) : Nat := (x % (U32MOD : Int)).toNat

/-- A 4x4 matrix (the instance world transform `LdrMatrix`), entries over `ℚ`
standing in for the source's floats; `mRC` is row `R`, column `C`. -/
structure Mat4 where
  m00 : ℚ
  m01 : ℚ
  m02 : ℚ
  m03 : ℚ
  m10 : ℚ
  m11 : ℚ
  m12 : ℚ
  m13 : ℚ
  m20 : ℚ
  m21 : ℚ
  m22 : ℚ
  m23 : ℚ
  m30 : ℚ
  m31 : ℚ
  m32 : ℚ
  m33 : ℚ
deriving DecidableEq

/-- Determinant of a 3x3 matrix given entrywise (row major). -/
def det3 (a b c d e f g h i : ℚ) : ℚ :=
  a * (e * i - f * h) - b * (d * i - f * g) + c * (d * h - e * g)

/-- Determinant of a 4x4 matrix by cofactor expansion along the first row
(the `nvmath::det` collaborator used at line 980). -/
def det4 (m : Mat4) : ℚ :=
  m.m00 * det3 m.m11 m.m12 m.m13 m.m21 m.m22 m.m23 m.m31 m.m32 m.m33
  - m.m01 * det3 m.m10 m.m12 m.m13 m.m20 m.m22 m.m23 m.m30 m.m32 m.m33
  + m.m02 * det3 m.m10 m.m11 m.m13 m.m20 m.m21 m.m23 m.m30 m.m31 m.m33
  - m.m03 * det3 m.m10 m.m11 m.m12 m.m20 m.m21 m.m22 m.m30 m.m31 m.m32

/-- The identity transform (determinant `1`). -/
def mat4Id : Mat4 :=
  ⟨1, 0, 0, 0, 0, 1, 0, 0, 0, 0, 1, 0, 0, 0, 0, 1⟩

/-- A mirroring transform (x negated, determinant `-1`). -/
def mat4Mirror : Mat4 :=
  ⟨-1, 0, 0, 0, 0, 1, 0, 0, 0, 0, 1, 0, 0, 0, 0, 1⟩

/-- Modelled from the spec: per-part source-variant data of the external
Part Geometry Source (`LdrPart`); counts are `uint32_t`, pointer fields are
modelled by their null-ness (`hasTriangleMaterials` is
`triangleMaterials != nullptr`). -/
structure LdrPart where
  numPositions : Nat
  numTriangles : Nat
  numLines : Nat
  numOptionalLines : Nat
  hasTriangleMaterials : Bool
  hasComplexMaterial : Bool
  hasNoBackFaceCulling : Bool
deriving DecidableEq

/-- Modelled from the spec: per-part render-variant data (`LdrRenderPart`);
`hasMaterialsC` is `materialsC != nullptr`. -/
structure LdrRenderPart where
  numVertices : Nat
  numTriangles : Nat
  numTrianglesC : Nat
  numLines : Nat
  hasTriangleMaterials : Bool
  hasMaterialsC : Bool
  hasComplexMaterial : Bool
  canChamfer : Bool
deriving DecidableEq

/-- Modelled from the spec: one instance of a resolved model (`LdrInstance`):
a part id (`uint32_t`, possibly `LDR_INVALID_ID`), a material id and a 4x4
world transform. -/
structure LdrInstance where
  part : Nat
  material : Nat
  transform : Mat4
deriving DecidableEq

/-- Modelled from the spec: the external Part Geometry Source: registered
parts indexed by dense id (always fetchable), and per-id render variants
which may be absent. -/
structure Loader where
  parts : List LdrPart
  renderParts : List (Option LdrRenderPart)
deriving DecidableEq

/-- An all-zero part, the placeholder for out-of-range fetches. -/
def defaultLdrPart : LdrPart := ⟨0, 0, 0, 0, false, false, false⟩

/-- The registered part count, `ldrGetNumRegisteredParts`. -/
def ldrGetNumRegisteredParts (l : Loader) : Nat := l.parts.length

/-- Modelled from the spec: `ldrGetPart` returns the registered part for a
dense id and null (`none`) for the sentinel or an unregistered id. -/
def ldrGetPart (l : Loader) (id : Nat) : Option LdrPart := l.parts[id]?

/-- Modelled from the spec: `ldrGetRenderPart` returns the render variant
when it exists for the id, else null (`none`). -/
def ldrGetRenderPart (l : Loader) (id : Nat) : Option LdrRenderPart :=
  (l.renderParts[id]?).getD none

/-- The per-part region record `DrawPart` of `ldraw_viewer.cpp` (lines
79-93): counts and offsets in element units. -/
structure DrawPart where
  vertexCount : Nat
  vertexOffset : Nat
  triangleCount : Nat
  triangleOffset : Nat
  triangleCountC : Nat
  triangleOffsetC : Nat
  edgesCount : Nat
  edgesOffset : Nat
  optionalCount : Nat
  optionalOffset : Nat
  materialIDOffset : Nat
  materialIDOffsetC : Nat
deriving DecidableEq

/-- A value-initialized `DrawPart` (what `std::vector::resize` appends). -/
def zeroDrawPart : DrawPart := ⟨0, 0, 0, 0, 0, 0, 0, 0, 0, 0, 0, 0⟩

/-- The `Tweak` record of render toggles and debug selections (lines
114-133); the selection fields are C `int`s. -/
structure Tweak where
  cull : Bool
  drawRenderPart : Bool
  edges : Bool
  triangles : Bool
  chamfered : Bool
  wireframe : Bool
  optional : Bool
  instance_ : Int
  part : Int
  tri : Int
  vertex : Int
  edge : Int
  threadedLoad : Bool
deriving DecidableEq

/-! ## Active-Part Selector and Layout Planner (`rebuildSceneBuffers`) -/

/-- One step of the active-part scan (lines 746-750): an instance with a
valid part id marks that id active, a sentinel instance is skipped. -/
def activePartStep (acc : List Bool) (inst : LdrInstance) : List Bool :=
  if inst.part ≠ LDR_INVALID_ID then acc.set inst.part true else acc

/-- The Active-Part Selector (lines 744-750): the membership array over part
ids, built by a single scan of the instance list. -/
def computeActiveParts (numParts : Nat) (instances : List LdrInstance) : List Bool :=
  instances.foldl activePartStep (List.replicate numParts false)

/-- The per-part geometry counts read by the layout pass (lines 767-796):
`(vertexCount, triangleCount, edgesCount, optionalCount, triangleCountC)`.
In the render branch an absent render part degenerates to all zeros. -/
def geometryCounts (drawRenderPart : Bool) (loader : Loader) (i : Nat) :
    Nat × Nat × Nat × Nat × Nat :=
  if !drawRenderPart then
    let p := loader.parts.getD i defaultLdrPart
    (p.numPositions, p.numTriangles, p.numLines, p.numOptionalLines, 0)
  else
    match ldrGetRenderPart loader i with
    | some r => (r.numVertices, r.numTriangles, r.numLines, 0, r.numTrianglesC)
    | none => (0, 0, 0, 0, 0)

/-- The per-part material-index counts of the layout pass (lines 764-789):
`(materialIndexCount, materialIndexCountC)`. -/
def materialIndexCounts (drawRenderPart : Bool) (loader : Loader) (i : Nat) :
    Nat × Nat :=
  if !drawRenderPart then
    let p := loader.parts.getD i defaultLdrPart
    (if p.hasTriangleMaterials && p.hasComplexMaterial then p.numTriangles else 0, 0)
  else
    match ldrGetRenderPart loader i with
    | some r =>
      (if r.hasTriangleMaterials && r.hasComplexMaterial then r.numTriangles else 0,
       if r.hasMaterialsC && r.hasComplexMaterial then r.numTrianglesC else 0)
    | none => (0, 0)

/-- The running offsets and region table threaded through the layout loop. -/
structure LayoutState where
  vboOffset : Nat
  iboOffset : Nat
  mtlOffset : Nat
  drawParts : List DrawPart
deriving DecidableEq

/-- One iteration of the layout loop for an active part id `i`
(lines 760-815): reads the counts for the selected variant, assigns all
offsets from the running totals and advances them.  `mtlOffset` is advanced
by `materialIndexCount` twice, mirroring the two `mtlOffset +=
materialIndexCount` statements at lines 802 and 808 of the source. -/
def layoutPartStep (drawRenderPart : Bool) (loader : Loader)
    (st : LayoutState) (i : Nat) : LayoutState :=
  let gc := geometryCounts drawRenderPart loader i
  let vc := gc.1
  let tc := gc.2.1
  let ec := gc.2.2.1
  let oc := gc.2.2.2.1
  let tcC := gc.2.2.2.2
  let mc := materialIndexCounts drawRenderPart loader i
  let mic := mc.1
  let micC := mc.2
  let vertexOffset := st.vboOffset
  let triangleOffset := st.iboOffset
  let materialIDOffset := st.mtlOffset
  let mtl1 := st.mtlOffset + mic
  let materialIDOffsetC := mtl1
  let mtl2 := mtl1 + micC
  let vbo1 := st.vboOffset + vc
  let ibo1 := st.iboOffset + tc * 3
  let mtl3 := mtl2 + mic
  let edgesOffset := ibo1
  let ibo2 := ibo1 + ec * 2
  let optionalOffset := ibo2
  let ibo3 := ibo2 + oc * 2
  let triangleOffsetC := ibo3
  let ibo4 := ibo3 + tcC * 3
  { vboOffset := vbo1
    iboOffset := ibo4
    mtlOffset := mtl3
    drawParts := st.drawParts.set i
      ⟨vc, vertexOffset, tc, triangleOffset, tcC, triangleOffsetC,
       ec, edgesOffset, oc, optionalOffset, materialIDOffset, materialIDOffsetC⟩ }

/-- The resize `m_scene.drawParts.resize(numParts)` (line 742): existing records are
kept, new records are value-initialized (zero). -/
def resizeDrawParts (old : List DrawPart) (n : Nat) : List DrawPart :=
  (old ++ List.replicate (n - old.length) zeroDrawPart).take n

/-- The three shared device buffers. -/
inductive BufferKind
  | vertex
  | index
  | materialIdx
deriving DecidableEq

/-- A `glNamedBufferStorage` allocation of a shared buffer (lines 830-841),
recorded in element units; issued only for a nonzero grand total. -/
structure Alloc where
  kind : BufferKind
  elemCount : Nat
deriving DecidableEq

/-- A `glNamedBufferSubData` upload of one part's sub-region (lines
843-891), recorded in element units of the target buffer. -/
structure Upload where
  partId : Nat
  kind : BufferKind
  elemOffset : Nat
  elemCount : Nat
deriving DecidableEq

/-- The Buffer Materializer's uploads for one active part id `i`
(lines 849-890).  In the render branch an absent render part is skipped
entirely (`if(!rpart) continue`). -/
def uploadsForPart (drawRenderPart : Bool) (loader : Loader)
    (dps : List DrawPart) (i : Nat) : List Upload :=
  let dp := dps.getD i zeroDrawPart
  if !drawRenderPart then
    let p := loader.parts.getD i defaultLdrPart
    [⟨i, BufferKind.vertex, dp.vertexOffset, dp.vertexCount⟩,
     ⟨i, BufferKind.index, dp.triangleOffset, dp.triangleCount * 3⟩,
     ⟨i, BufferKind.index, dp.edgesOffset, dp.edgesCount * 2⟩,
     ⟨i, BufferKind.index, dp.optionalOffset, dp.optionalCount * 2⟩]
    ++ (if p.hasTriangleMaterials && p.hasComplexMaterial then
          [⟨i, BufferKind.materialIdx, dp.materialIDOffset, dp.triangleCount⟩]
        else [])
  else
    match ldrGetRenderPart loader i with
    | none => []
    | some r =>
      [⟨i, BufferKind.vertex, dp.vertexOffset, dp.vertexCount⟩,
       ⟨i, BufferKind.index, dp.triangleOffset, dp.triangleCount * 3⟩,
       ⟨i, BufferKind.index, dp.edgesOffset, dp.edgesCount * 2⟩,
       ⟨i, BufferKind.index, dp.triangleOffsetC, dp.triangleCountC * 3⟩]
      ++ (if r.hasTriangleMaterials && r.hasComplexMaterial then
            [⟨i, BufferKind.materialIdx, dp.materialIDOffset, dp.triangleCount⟩]
          else [])
      ++ (if r.hasMaterialsC && r.hasComplexMaterial then
            [⟨i, BufferKind.materialIdx, dp.materialIDOffsetC, dp.triangleCountC⟩]
          else [])

/-- The result of `rebuildSceneBuffers`: the region table, the three grand
totals, the membership array, the buffer allocations and the uploads. -/
structure RebuildResult where
  drawParts : List DrawPart
  vboTotal : Nat
  iboTotal : Nat
  mtlTotal : Nat
  activeParts : List Bool
  allocations : List Alloc
  uploads : List Upload
deriving DecidableEq

/-- The rebuild `rebuildSceneBuffers` (lines 735-892): resize the region table, scan
the instances for active parts, run the layout loop over ascending part
ids skipping inactive ones, allocate the shared buffers for nonzero grand
totals, and upload each active part's sub-regions. -/
def rebuildSceneBuffers (loader : Loader) (drawRenderPart : Bool)
    (oldDrawParts : List DrawPart) (model : List LdrInstance) : RebuildResult :=
  let numParts := ldrGetNumRegisteredParts loader
  let resized := resizeDrawParts oldDrawParts numParts
  let active := computeActiveParts numParts model
  let final := (List.range numParts).foldl
    (fun st i => if active.getD i false then layoutPartStep drawRenderPart loader st i else st)
    ⟨0, 0, 0, resized⟩
  let allocations :=
    (if final.vboOffset ≠ 0 then [⟨BufferKind.vertex, final.vboOffset⟩] else [])
    ++ (if final.iboOffset ≠ 0 then [⟨BufferKind.index, final.iboOffset⟩] else [])
    ++ (if final.mtlOffset ≠ 0 then [⟨BufferKind.materialIdx, final.mtlOffset⟩] else [])
  let uploads := (List.range numParts).foldl
    (fun acc i => if active.getD i false then
        acc ++ uploadsForPart drawRenderPart loader final.drawParts i else acc)
    []
  ⟨final.drawParts, final.vboOffset, final.iboOffset, final.mtlOffset,
   active, allocations, uploads⟩

/-- Following the spec's words ("the sum of per-part region sizes ...
equals its reported grand totals"): the sum, over the active parts, of the
material-id sub-region sizes (primary plus chamfered) of one layout pass.
Stated from the spec for comparison against the code's `mtlTotal`. -/
def specSumMaterialRegionSizes (loader : Loader) (drawRenderPart : Bool)
    (model : List LdrInstance) : Nat :=
  let numParts := ldrGetNumRegisteredParts loader
  let active := computeActiveParts numParts model
  (List.range numParts).foldl
    (fun acc i => if active.getD i false then
        acc + (materialIndexCounts drawRenderPart loader i).1
            + (materialIndexCounts drawRenderPart loader i).2 else acc)
    0

/-! ## Render Batcher (`drawDebug`) -/

/-- A GL state or draw command issued by the Render Batcher.  `drawTriangles`
is a filled `GL_TRIANGLES` draw (`count` indices starting at index-element
`offset`, with `baseVertex`, and the material-id sub-region offset bound via
`UNI_MATERIALIDOFFSET` when the part has complex materials); `drawWire` is
the wireframe overlay (same range, line polygon mode); `drawLines`,
`drawLineLoop` and `drawPoint` are the line/debug draws. -/
inductive GLCmd
  | cullEnable (enabled : Bool)
  | frontFaceCCW (ccw : Bool)
  | drawTriangles (count : Nat) (offset : Nat) (baseVertex : Nat) (matOffset : Option Nat)
  | drawWire (count : Nat) (offset : Nat) (baseVertex : Nat)
  | drawLines (count : Nat) (offset : Nat) (baseVertex : Nat)
  | drawLineLoop (count : Nat) (offset : Nat) (baseVertex : Nat)
  | drawPoint (first : Nat)
deriving DecidableEq

/-- The GPU pipeline state tracked across instances (lines 919-920):
back-face culling enabled, and counter-clockwise front faces. -/
structure BatchState where
  cullFace : Bool
  ccw : Bool
deriving DecidableEq

/-- The result of processing one instance: the index at which the
`DrawPart` table was indexed (line 967, before the skip checks), the
commands issued, and the updated tracked state. -/
structure InstStep where
  access : Nat
  cmds : List GLCmd
  state : BatchState
deriving DecidableEq

/-- The source-variant draws for one instance (lines 1001-1041): triangles,
edges, optional lines and wireframe overlay, each gated by its toggle.
Counts come from the part, offsets from its `DrawPart` region. -/
def sourceDraws (p : LdrPart) (dp : DrawPart) (tweak : Tweak) : List GLCmd :=
  (if tweak.triangles then
    [GLCmd.drawTriangles (p.numTriangles * 3) dp.triangleOffset dp.vertexOffset
      (if p.hasTriangleMaterials && p.hasComplexMaterial then some dp.materialIDOffset else none)]
   else [])
  ++ (if tweak.edges then
    [GLCmd.drawLines (p.numLines * 2) dp.edgesOffset dp.vertexOffset] else [])
  ++ (if tweak.optional then
    [GLCmd.drawLines (p.numOptionalLines * 2) dp.optionalOffset dp.vertexOffset] else [])
  ++ (if tweak.wireframe then
    [GLCmd.drawWire (p.numTriangles * 3) dp.triangleOffset dp.vertexOffset] else [])

/-- The render-variant draws for one instance (lines 1042-1082): the
primary-or-chamfered triangle range is selected by `m_tweak.chamfered &&
rpart->flags.canChamfer` (lines 1044-1048), then triangles, edges and
wireframe are drawn, each gated by its toggle. -/
def renderDraws (r : LdrRenderPart) (dp : DrawPart) (tweak : Tweak) : List GLCmd :=
  let cham := tweak.chamfered && r.canChamfer
  let triangles := if cham then dp.triangleOffsetC else dp.triangleOffset
  let numTriangles := if cham then r.numTrianglesC else r.numTriangles
  let hasMats := if cham then r.hasMaterialsC else r.hasTriangleMaterials
  let materialOffset := if cham then dp.materialIDOffsetC else dp.materialIDOffset
  (if tweak.triangles then
    [GLCmd.drawTriangles (numTriangles * 3) triangles dp.vertexOffset
      (if hasMats && r.hasComplexMaterial then some materialOffset else none)]
   else [])
  ++ (if tweak.edges then
    [GLCmd.drawLines (r.numLines * 2) dp.edgesOffset dp.vertexOffset] else [])
  ++ (if tweak.wireframe then
    [GLCmd.drawWire (numTriangles * 3) triangles dp.vertexOffset] else [])

/-- The debug-selection draws (lines 1084-1106): a single vertex point, a
triangle outline and an edge, each gated by its selection index and
addressed relative to the part's region offsets. -/
def debugDraws (dp : DrawPart) (tweak : Tweak) : List GLCmd :=
  (if 0 ≤ tweak.vertex then
    [GLCmd.drawPoint (u32ofInt tweak.vertex + dp.vertexOffset)] else [])
  ++ (if 0 ≤ tweak.tri then
    [GLCmd.drawLineLoop 3 (dp.triangleOffset + u32ofInt tweak.tri * 3) dp.vertexOffset] else [])
  ++ (if 0 ≤ tweak.edge then
    [GLCmd.drawLines 2 (dp.edgesOffset + u32ofInt tweak.edge * 2) dp.vertexOffset] else [])

/-- The body of the per-instance loop after the skip checks (lines
975-1106): toggle culling when the desired state differs (lines 986-994),
toggle front-face winding when the determinant sign demands it (lines
996-999), then the variant draws and the debug-selection draws. -/
def drawDebugBody (loader : Loader) (drawParts : List DrawPart) (tweak : Tweak)
    (st : BatchState) (inst : LdrInstance) (p : LdrPart) : List GLCmd × BatchState :=
  let dp := drawParts.getD inst.part zeroDrawPart
  let desiredCull := !(p.hasNoBackFaceCulling || !tweak.cull)
  let cullCmds := if st.cullFace ≠ desiredCull then [GLCmd.cullEnable desiredCull] else []
  let detPos := decide (0 < det4 inst.transform)
  let ffCmds := if st.ccw ≠ detPos then [GLCmd.frontFaceCCW detPos] else []
  let drawCmds :=
    if !tweak.drawRenderPart then sourceDraws p dp tweak
    else match ldrGetRenderPart loader inst.part with
      | some r => renderDraws r dp tweak
      | none => []
  let dbgCmds := if inst.part = u32ofInt tweak.part then debugDraws dp tweak else []
  (cullCmds ++ ffCmds ++ drawCmds ++ dbgCmds, ⟨desiredCull, detPos⟩)

/-- One iteration of the Render Batcher's instance loop (lines 963-1106).
The `DrawPart` table is indexed at `instance->part` unconditionally (line
967, recorded in `access`) before the two skip checks: the single-instance
filter (line 969) and the null-part / single-part filter (line 972). -/
def drawDebugInstance (loader : Loader) (drawParts : List DrawPart) (tweak : Tweak)
    (st : BatchState) (i : Nat) (inst : LdrInstance) : InstStep :=
  let r :=
    if 0 ≤ tweak.instance_ ∧ i ≠ u32ofInt tweak.instance_ then ([], st)
    else match ldrGetPart loader inst.part with
      | none => ([], st)
      | some p =>
        if 0 ≤ tweak.part ∧ inst.part ≠ u32ofInt tweak.part then ([], st)
        else drawDebugBody loader drawParts tweak st inst p
  ⟨inst.part, r.1, r.2⟩

/-- The Render Batcher's loop over the instance list, threading the tracked
state and collecting the table-access trace and the commands. -/
def drawDebugRun (loader : Loader) (drawParts : List DrawPart) (tweak : Tweak) :
    BatchState → Nat → List LdrInstance → List Nat × List GLCmd × BatchState
  | st, _, [] => ([], [], st)
  | st, i, inst :: rest =>
    let s := drawDebugInstance loader drawParts tweak st i inst
    let r := drawDebugRun loader drawParts tweak s.state (i + 1) rest
    (s.access :: r.1, s.cmds ++ r.2.1, r.2.2)

/-- The Render Batcher `drawDebug` (lines 894-1129): the commands issued for a model, starting
from culling enabled and counter-clockwise front faces (lines 902, 919-925). -/
def drawDebug (loader : Loader) (drawParts : List DrawPart) (tweak : Tweak)
    (model : List LdrInstance) : List GLCmd :=
  (drawDebugRun loader drawParts tweak ⟨true, true⟩ 0 model).2.1

/-- The trace of indices at which `drawDebug` indexes the `DrawPart` table
(line 967): one access per instance, before any skip check. -/
def drawDebugAccesses (loader : Loader) (drawParts : List DrawPart) (tweak : Tweak)
    (model : List LdrInstance) : List Nat :=
  (drawDebugRun loader drawParts tweak ⟨true, true⟩ 0 model).1

/-- The front-face winding in effect at each draw command of a command
list, starting from winding `w`. -/
def windingsAtDraws (w : Bool) : List GLCmd → List Bool
  | [] => []
  | GLCmd.frontFaceCCW b :: rest => windingsAtDraws b rest
  | GLCmd.cullEnable _ :: rest => windingsAtDraws w rest
  | _ :: rest => w :: windingsAtDraws w rest

/-- The cull-enable state in effect at each draw command of a command list,
starting from cull state `c`. -/
def cullsAtDraws (c : Bool) : List GLCmd → List Bool
  | [] => []
  | GLCmd.cullEnable b :: rest => cullsAtDraws b rest
  | GLCmd.frontFaceCCW _ :: rest => cullsAtDraws c rest
  | _ :: rest => c :: cullsAtDraws c rest

/-- The filled-triangle draws of a command list. -/
def fillTriangleDraws (cmds : List GLCmd) : List GLCmd :=
  cmds.filter fun c => match c with
    | GLCmd.drawTriangles _ _ _ _ => true
    | _ => false

/-! ## Debug-selection clamping (`processUI`, lines 510-602) -/

/-- The loader configuration record (`LdrLoaderCreateInfo`), compared
byte-for-byte (`memcmp`, line 693) against its last-materialized snapshot;
the chamfer amount (a float) is modelled over `ℚ`. -/
structure LdrLoaderCreateInfo where
  partFixMode : Nat
  renderpartBuildMode : Nat
  partFixTjunctions : Bool
  partFixOverlap : Bool
  partHiResPrimitives : Bool
  renderpartChamfer : ℚ
deriving DecidableEq

/-- The application state threaded through one frame: the tweak record and
its previous-frame snapshot, the loader configuration and its
last-materialized snapshot, and whether the scene has a render model. -/
structure ViewerState where
  tweak : Tweak
  tweakLast : Tweak
  loaderCreateInfo : LdrLoaderCreateInfo
  loaderCreateInfoLast : LdrLoaderCreateInfo
  hasRenderModel : Bool
deriving DecidableEq

/-- The phases of a frame that the claims track: a scene reset
(`deinitScene` + `resetLoader` + `initScene`), a scene-buffer rebuild
(`rebuildSceneBuffers`), and the Render Batcher (`drawDebug`). -/
inductive FrameEvent
  | sceneReset
  | rebuild
  | draw
deriving DecidableEq

/-- The reset `resetScene` (lines 398-408), as triggered by the LOAD/RELOAD buttons of
`processUI`: the scene is torn down, the loader is recreated (recording the
configuration snapshot, line 375), the scene is reloaded (recreating the
render model per the build mode, line 341) and the buffers are rebuilt. -/
def resetScenePhase (s : ViewerState) : ViewerState × List FrameEvent :=
  ({ s with
      loaderCreateInfoLast := s.loaderCreateInfo
      hasRenderModel := s.loaderCreateInfo.renderpartBuildMode = LDR_RENDERPART_BUILD_ONLOAD },
   [FrameEvent.sceneReset, FrameEvent.rebuild])

/-- One frame of `think` (lines 642-728) restricted to the invalidation
logic: `processUI` may perform a requested full reload; then the loader
configuration (including the threaded-load toggle, line 693) is compared
against its snapshot and a differing configuration forces a scene reset;
a scene without a render model forces the render-variant toggle off (lines
700-701); the buffers are rebuilt when the reset ran or the chamfer or
render-variant toggles changed (lines 703-705); the Render Batcher then
draws (line 709) and the tweak snapshot is recorded (line 727). -/
def thinkFrame (s : ViewerState) (reloadRequested : Bool) : ViewerState × List FrameEvent :=
  let r1 := if reloadRequested then resetScenePhase s else (s, [])
  let s1 := r1.1
  let doRebuild := decide (s1.loaderCreateInfoLast ≠ s1.loaderCreateInfo
      ∨ s1.tweak.threadedLoad ≠ s1.tweakLast.threadedLoad)
  let r2 :=
    if doRebuild then
      ({ s1 with
          loaderCreateInfoLast := s1.loaderCreateInfo
          hasRenderModel := s1.loaderCreateInfo.renderpartBuildMode = LDR_RENDERPART_BUILD_ONLOAD },
       [FrameEvent.sceneReset])
    else (s1, ([] : List FrameEvent))
  let s2 := r2.1
  let s3 := if s2.hasRenderModel then s2
    else { s2 with tweak := { s2.tweak with drawRenderPart := false } }
  let evs3 :=
    if doRebuild = true ∨ s3.tweak.chamfered ≠ s3.tweakLast.chamfered
        ∨ s3.tweak.drawRenderPart ≠ s3.tweakLast.drawRenderPart
    then [FrameEvent.rebuild] else []
  ({ s3 with tweakLast := s3.tweak }, r1.2 ++ r2.2 ++ evs3 ++ [FrameEvent.draw])

/-! ## Helper lemmas -/

theorem getD_set_self {α : Type} (l : List α) (i : Nat) (x d : α) (h : i < l.length) :
    (l.set i x).getD i d = x := by
  rw [List.getD_eq_getElem?_getD, List.getElem?_set_self h]
  rfl

theorem getD_set_ne {α : Type} (l : List α) (i j : Nat) (x d : α) (h : i ≠ j) :
    (l.set i x).getD j d = l.getD j d := by
  rw [List.getD_eq_getElem?_getD, List.getElem?_set_ne h, ← List.getD_eq_getElem?_getD]

theorem getD_replicate_lt {α : Type} (n i : Nat) (x d : α) (h : i < n) :
    (List.replicate n x).getD i d = x := by
  rw [List.getD_eq_getElem?_getD, List.getElem?_replicate_of_lt h]
  rfl

/-- A single scan step preserves the membership array's length. -/
theorem activePartStep_length (acc : List Bool) (inst : LdrInstance) :
    (activePartStep acc inst).length = acc.length := by
  unfold activePartStep
  split <;> simp

/-- The active-part fold preserves the membership array's length. -/
theorem activeParts_foldl_length (insts : List LdrInstance) (acc : List Bool) :
    (insts.foldl activePartStep acc).length = acc.length := by
  induction insts generalizing acc with
  | nil => rfl
  | cons a l ih => rw [List.foldl_cons, ih, activePartStep_length]

/-- Characterization of the active-part scan over any accumulator: an entry
within bounds ends up true exactly when it started true or some scanned
instance references it with a non-sentinel id. -/
theorem activeParts_foldl_getD (insts : List LdrInstance) (acc : List Bool)
    (id : Nat) (hid : id < acc.length) :
    ((insts.foldl activePartStep acc).getD id false = true ↔
      acc.getD id false = true ∨ ∃ inst ∈ insts, inst.part = id ∧ inst.part ≠ LDR_INVALID_ID) := by
  induction insts generalizing acc with
  | nil => simp
  | cons a l ih =>
    rw [List.foldl_cons]
    rw [ih (activePartStep acc a) (by rw [activePartStep_length]; exact hid)]
    have hstep : (activePartStep acc a).getD id false = true ↔
        acc.getD id false = true ∨ (a.part = id ∧ a.part ≠ LDR_INVALID_ID) := by
      unfold activePartStep
      split
      · rename_i hne
        by_cases hai : a.part = id
        · subst hai
          rw [getD_set_self _ _ _ _ hid]
          simp [hne]
        · rw [getD_set_ne _ _ _ _ _ hai]
          simp [hai]
      · rename_i hinv
        simp only [not_not] at hinv
        simp [hinv]
    rw [hstep]
    constructor
    · rintro (⟨h | h⟩ | ⟨inst, hmem, hp⟩)
      · exact Or.inl h
      · exact Or.inr ⟨a, List.mem_cons_self a l, h⟩
      · exact Or.inr ⟨inst, List.mem_cons_of_mem a hmem, hp⟩
    · rintro (h | ⟨inst, hmem, hp⟩)
      · exact Or.inl (Or.inl h)
      · rcases List.mem_cons.mp hmem with heq | hmem'
        · subst heq
          exact Or.inl (Or.inr hp)
        · exact Or.inr ⟨inst, hmem', hp⟩

/-- The layout fold leaves the state untouched when every listed id is
inactive. -/
theorem layoutFold_all_inactive (drawRenderPart : Bool) (loader : Loader)
    (active : List Bool) (ids : List Nat) (st : LayoutState)
    (h : ∀ i ∈ ids, active.getD i false = false) :
    (ids.foldl
      (fun st i => if active.getD i false then layoutPartStep drawRenderPart loader st i else st)
      st) = st := by
  induction ids generalizing st with
  | nil => rfl
  | cons a l ih =>
    rw [List.foldl_cons]
    rw [h a (List.mem_cons_self a l)]
    simp only [Bool.false_eq_true, if_false]
    exact ih st fun i hi => h i (List.mem_cons_of_mem a hi)

/-- The upload fold collects nothing when every listed id is inactive. -/
theorem uploadFold_all_inactive (drawRenderPart : Bool) (loader : Loader)
    (active : List Bool) (dps : List DrawPart) (ids : List Nat) (acc : List Upload)
    (h : ∀ i ∈ ids, active.getD i false = false) :
    (ids.foldl
      (fun acc i => if active.getD i false then
          acc ++ uploadsForPart drawRenderPart loader dps i else acc)
      acc) = acc := by
  induction ids generalizing acc with
  | nil => rfl
  | cons a l ih =>
    rw [List.foldl_cons]
    rw [h a (List.mem_cons_self a l)]
    simp only [Bool.false_eq_true, if_false]
    exact ih acc fun i hi => h i (List.mem_cons_of_mem a hi)

/-- The layout fold does not disturb the region record of an id that is
inactive (the loop `continue`s past it and every step writes only its own
index). -/
theorem layoutFold_getD_inactive (drawRenderPart : Bool) (loader : Loader)
    (active : List Bool) (ids : List Nat) (st : LayoutState) (id : Nat)
    (h : active.getD id false = false) :
    ((ids.foldl
      (fun st i => if active.getD i false then layoutPartStep drawRenderPart loader st i else st)
      st).drawParts.getD id zeroDrawPart) = st.drawParts.getD id zeroDrawPart := by
  induction ids generalizing st with
  | nil => rfl
  | cons a l ih =>
    rw [List.foldl_cons]
    by_cases ha : active.getD a false = true
    · rw [ha]
      simp only [if_true]
      rw [ih]
      have hne : a ≠ id := by
        intro he
        rw [he, h] at ha
        exact Bool.false_ne_true ha
      unfold layoutPartStep
      exact getD_set_ne _ _ _ _ _ hne
    · rw [Bool.not_eq_true] at ha
      rw [ha]
      simp only [Bool.false_eq_true, if_false]
      exact ih st

/-- Whether a command is a pipeline-state change (as opposed to a draw). -/
def isStateCmd : GLCmd → Bool
  | GLCmd.cullEnable _ => true
  | GLCmd.frontFaceCCW _ => true
  | _ => false

theorem sourceDraws_no_state (p : LdrPart) (dp : DrawPart) (tweak : Tweak) :
    ∀ c ∈ sourceDraws p dp tweak, isStateCmd c = false := by
  intro c hc
  unfold sourceDraws at hc
  simp only [List.mem_append] at hc
  rcases hc with ((hc | hc) | hc) | hc <;>
    (split at hc <;> simp at hc <;> subst hc <;> rfl)

theorem renderDraws_no_state (r : LdrRenderPart) (dp : DrawPart) (tweak : Tweak) :
    ∀ c ∈ renderDraws r dp tweak, isStateCmd c = false := by
  intro c hc
  unfold renderDraws at hc
  simp only [List.mem_append] at hc
  rcases hc with (hc | hc) | hc <;>
    (split at hc <;> simp at hc <;> subst hc <;> rfl)

theorem debugDraws_no_state (dp : DrawPart) (tweak : Tweak) :
    ∀ c ∈ debugDraws dp tweak, isStateCmd c = false := by
  intro c hc
  unfold debugDraws at hc
  simp only [List.mem_append] at hc
  rcases hc with (hc | hc) | hc <;>
    (split at hc <;> simp at hc <;> subst hc <;> rfl)

/-- Draw-only command lists do not change the winding seen at their draws. -/
theorem windingsAtDraws_no_state (w : Bool) (l : List GLCmd)
    (h : ∀ c ∈ l, isStateCmd c = false) : ∀ x ∈ windingsAtDraws w l, x = w := by
  induction l with
  | nil => intro x hx; simp [windingsAtDraws] at hx
  | cons a rest ih =>
    intro x hx
    have hrest : ∀ c ∈ rest, isStateCmd c = false :=
      fun c hc => h c (List.mem_cons_of_mem a hc)
    cases a with
    | cullEnable b => exact absurd (h _ (List.mem_cons_self _ _)) (by simp [isStateCmd])
    | frontFaceCCW b => exact absurd (h _ (List.mem_cons_self _ _)) (by simp [isStateCmd])
    | drawTriangles c o bv m =>
      simp only [windingsAtDraws, List.mem_cons] at hx
      rcases hx with hx | hx
      · exact hx
      · exact ih hrest x hx
    | drawWire c o bv =>
      simp only [windingsAtDraws, List.mem_cons] at hx
      rcases hx with hx | hx
      · exact hx
      · exact ih hrest x hx
    | drawLines c o bv =>
      simp only [windingsAtDraws, List.mem_cons] at hx
      rcases hx with hx | hx
      · exact hx
      · exact ih hrest x hx
    | drawLineLoop c o bv =>
      simp only [windingsAtDraws, List.mem_cons] at hx
      rcases hx with hx | hx
      · exact hx
      · exact ih hrest x hx
    | drawPoint f =>
      simp only [windingsAtDraws, List.mem_cons] at hx
      rcases hx with hx | hx
      · exact hx
      · exact ih hrest x hx

/-- Draw-only command lists do not change the cull state seen at their
draws. -/
theorem cullsAtDraws_no_state (w : Bool) (l : List GLCmd)
    (h : ∀ c ∈ l, isStateCmd c = false) : ∀ x ∈ cullsAtDraws w l, x = w := by
  induction l with
  | nil => intro x hx; simp [cullsAtDraws] at hx
  | cons a rest ih =>
    intro x hx
    have hrest : ∀ c ∈ rest, isStateCmd c = false :=
      fun c hc => h c (List.mem_cons_of_mem a hc)
    cases a with
    | cullEnable b => exact absurd (h _ (List.mem_cons_self _ _)) (by simp [isStateCmd])
    | frontFaceCCW b => exact absurd (h _ (List.mem_cons_self _ _)) (by simp [isStateCmd])
    | drawTriangles c o bv m =>
      simp only [cullsAtDraws, List.mem_cons] at hx
      rcases hx with hx | hx
      · exact hx
      · exact ih hrest x hx
    | drawWire c o bv =>
      simp only [cullsAtDraws, List.mem_cons] at hx
      rcases hx with hx | hx
      · exact hx
      · exact ih hrest x hx
    | drawLines c o bv =>
      simp only [cullsAtDraws, List.mem_cons] at hx
      rcases hx with hx | hx
      · exact hx
      · exact ih hrest x hx
    | drawLineLoop c o bv =>
      simp only [cullsAtDraws, List.mem_cons] at hx
      rcases hx with hx | hx
      · exact hx
      · exact ih hrest x hx
    | drawPoint f =>
      simp only [cullsAtDraws, List.mem_cons] at hx
      rcases hx with hx | hx
      · exact hx
      · exact ih hrest x hx

/-- An instance that passes the two skip checks is processed by
`drawDebugBody`. -/
theorem drawDebugInstance_not_skipped (loader : Loader) (dps : List DrawPart)
    (tweak : Tweak) (st : BatchState) (i : Nat) (inst : LdrInstance) (p : LdrPart)
    (h1 : ¬(0 ≤ tweak.instance_ ∧ i ≠ u32ofInt tweak.instance_))
    (h2 : ldrGetPart loader inst.part = some p)
    (h3 : ¬(0 ≤ tweak.part ∧ inst.part ≠ u32ofInt tweak.part)) :
    drawDebugInstance loader dps tweak st i inst =
      ⟨inst.part, (drawDebugBody loader dps tweak st inst p).1,
        (drawDebugBody loader dps tweak st inst p).2⟩ := by
  unfold drawDebugInstance
  rw [if_neg h1, h2]
  simp only [if_neg h3]

/-- The structure of the commands a processed instance issues: an optional
cull toggle, an optional front-face toggle, then draw-only commands; the
final tracked state is the desired cull/winding pair. -/
theorem drawDebugBody_structure (loader : Loader) (dps : List DrawPart)
    (tweak : Tweak) (st : BatchState) (inst : LdrInstance) (p : LdrPart) :
    ∃ tail : List GLCmd,
      (drawDebugBody loader dps tweak st inst p).1 =
        (if st.cullFace ≠ (!(p.hasNoBackFaceCulling || !tweak.cull)) then
          [GLCmd.cullEnable (!(p.hasNoBackFaceCulling || !tweak.cull))] else [])
        ++ (if st.ccw ≠ decide (0 < det4 inst.transform) then
          [GLCmd.frontFaceCCW (decide (0 < det4 inst.transform))] else [])
        ++ tail
      ∧ (∀ c ∈ tail, isStateCmd c = false)
      ∧ (drawDebugBody loader dps tweak st inst p).2 =
          ⟨!(p.hasNoBackFaceCulling || !tweak.cull), decide (0 < det4 inst.transform)⟩ := by
  refine ⟨(if !tweak.drawRenderPart then
      sourceDraws p (dps.getD inst.part zeroDrawPart) tweak
    else match ldrGetRenderPart loader inst.part with
      | some r => renderDraws r (dps.getD inst.part zeroDrawPart) tweak
      | none => [])
    ++ (if inst.part = u32ofInt tweak.part then
      debugDraws (dps.getD inst.part zeroDrawPart) tweak else []), ?_, ?_, ?_⟩
  · unfold drawDebugBody
    simp only [List.append_assoc]
  · intro c hc
    simp only [List.mem_append] at hc
    rcases hc with hc | hc
    · by_cases hdr : tweak.drawRenderPart
      · rw [hdr] at hc
        simp only [Bool.not_true, Bool.false_eq_true, if_false] at hc
        cases hrp : ldrGetRenderPart loader inst.part with
        | none => rw [hrp] at hc; simp at hc
        | some r => rw [hrp] at hc; exact renderDraws_no_state r _ tweak c hc
      · rw [Bool.not_eq_true] at hdr
        rw [hdr] at hc
        simp only [Bool.not_false, if_true] at hc
        exact sourceDraws_no_state p _ tweak c hc
    · split at hc
      · exact debugDraws_no_state _ tweak c hc
      · simp at hc
  · unfold drawDebugBody
    rfl

theorem getD_replicate_self {α : Type} (n i : Nat) (x : α) :
    (List.replicate n x).getD i x = x := by
  rcases Nat.lt_or_ge i n with h | h
  · exact getD_replicate_lt n i x x h
  · rw [List.getD_eq_getElem?_getD, List.getElem?_eq_none (by simpa using h)]
    rfl

/-- The membership array of a rebuild is the active-part scan's array. -/
theorem rebuild_activeParts_eq (loader : Loader) (drawRenderPart : Bool)
    (oldDrawParts : List DrawPart) (model : List LdrInstance) :
    (rebuildSceneBuffers loader drawRenderPart oldDrawParts model).activeParts =
      computeActiveParts (ldrGetNumRegisteredParts loader) model := rfl

/-- The `Tweak` defaults of the source (lines 114-133). -/
def tweakDefault : Tweak :=
  ⟨true, false, false, true, false, true, false, -1, -1, -1, -1, -1, false⟩

/-- C2: the active-part membership array produced by the single instance
scan is true exactly for the part ids referenced by some instance with a
non-sentinel id (so sentinel instances are skipped and in particular do not
mark id 0); and a model with an empty instance list yields all three grand
totals 0, no buffer allocations, and no commands from the Render Batcher. -/
theorem activeParts_membership_and_empty_model (loader : Loader)
    (drawRenderPart : Bool) (oldDrawParts : List DrawPart)
    (model : List LdrInstance) (tweak : Tweak) (id : Nat)
    (hid : id < ldrGetNumRegisteredParts loader) :
    ((rebuildSceneBuffers loader drawRenderPart oldDrawParts model).activeParts.getD id false = true
      ↔ ∃ inst ∈ model, inst.part = id ∧ inst.part ≠ LDR_INVALID_ID)
    ∧ (model = [] →
        (rebuildSceneBuffers loader drawRenderPart oldDrawParts model).vboTotal = 0
        ∧ (rebuildSceneBuffers loader drawRenderPart oldDrawParts model).iboTotal = 0
        ∧ (rebuildSceneBuffers loader drawRenderPart oldDrawParts model).mtlTotal = 0
        ∧ (rebuildSceneBuffers loader drawRenderPart oldDrawParts model).allocations = []
        ∧ drawDebug loader (rebuildSceneBuffers loader drawRenderPart oldDrawParts model).drawParts
            tweak model = []) := by
  constructor
  · rw [rebuild_activeParts_eq]
    unfold computeActiveParts
    rw [activeParts_foldl_getD model (List.replicate (ldrGetNumRegisteredParts loader) false) id
      (by simpa using hid)]
    rw [getD_replicate_self]
    simp
  · intro hm
    subst hm
    have hact : computeActiveParts (ldrGetNumRegisteredParts loader) [] =
        List.replicate (ldrGetNumRegisteredParts loader) false := rfl
    have hfold : ∀ st : LayoutState,
        ((List.range (ldrGetNumRegisteredParts loader)).foldl
          (fun st i => if (computeActiveParts (ldrGetNumRegisteredParts loader) []).getD i false
            then layoutPartStep drawRenderPart loader st i else st) st) = st := by
      intro st
      apply layoutFold_all_inactive
      intro i _
      rw [hact, getD_replicate_self]
    have hv : (rebuildSceneBuffers loader drawRenderPart oldDrawParts []).vboTotal = 0 := by
      show ((List.range (ldrGetNumRegisteredParts loader)).foldl _
        (⟨0, 0, 0, resizeDrawParts oldDrawParts (ldrGetNumRegisteredParts loader)⟩ :
          LayoutState)).vboOffset = 0
      rw [hfold]
    have hi : (rebuildSceneBuffers loader drawRenderPart oldDrawParts []).iboTotal = 0 := by
      show ((List.range (ldrGetNumRegisteredParts loader)).foldl _
        (⟨0, 0, 0, resizeDrawParts oldDrawParts (ldrGetNumRegisteredParts loader)⟩ :
          LayoutState)).iboOffset = 0
      rw [hfold]
    have hmt : (rebuildSceneBuffers loader drawRenderPart oldDrawParts []).mtlTotal = 0 := by
      show ((List.range (ldrGetNumRegisteredParts loader)).foldl _
        (⟨0, 0, 0, resizeDrawParts oldDrawParts (ldrGetNumRegisteredParts loader)⟩ :
          LayoutState)).mtlOffset = 0
      rw [hfold]
    refine ⟨hv, hi, hmt, ?_, rfl⟩
    show (if (rebuildSceneBuffers loader drawRenderPart oldDrawParts []).vboTotal ≠ 0 then _ else [])
      ++ (if (rebuildSceneBuffers loader drawRenderPart oldDrawParts []).iboTotal ≠ 0 then _ else [])
      ++ (if (rebuildSceneBuffers loader drawRenderPart oldDrawParts []).mtlTotal ≠ 0 then _ else [])
        = []
    rw [hv, hi, hmt]
    simp

/-- Witness loader for C2: one registered part, no render variant. -/
def loaderW2 : Loader := ⟨[⟨3, 1, 0, 0, false, false, false⟩], [none]⟩

/-- Witness for C2: at a one-part loader and the empty model, the membership
entry of part 0 is false (no instance references it) and the rebuild yields
zero totals, no allocations and no draw commands. -/
theorem activeParts_membership_and_empty_model_witness :
    ((rebuildSceneBuffers loaderW2 false [] []).activeParts.getD 0 false = true
      ↔ ∃ inst ∈ ([] : List LdrInstance), inst.part = 0 ∧ inst.part ≠ LDR_INVALID_ID)
    ∧ ((rebuildSceneBuffers loaderW2 false [] []).vboTotal = 0
      ∧ (rebuildSceneBuffers loaderW2 false [] []).iboTotal = 0
      ∧ (rebuildSceneBuffers loaderW2 false [] []).mtlTotal = 0
      ∧ (rebuildSceneBuffers loaderW2 false [] []).allocations = []
      ∧ drawDebug loaderW2 (rebuildSceneBuffers loaderW2 false [] []).drawParts
          tweakDefault [] = []) :=
  ⟨(activeParts_membership_and_empty_model loaderW2 false [] [] tweakDefault 0 (by decide)).1,
   (activeParts_membership_and_empty_model loaderW2 false [] [] tweakDefault 0 (by decide)).2 rfl⟩

/-- C1 fixture: one part with 3 positions, 1 triangle, a triangle-material
array and the complex-material flag; one instance referencing it. -/
def loaderC1 : Loader := ⟨[⟨3, 1, 0, 0, true, true, false⟩], [none]⟩

/-- C1 fixture: the single-instance model. -/
def modelC1 : List LdrInstance := [⟨0, 0, mat4Id⟩]

/-- C1: at this model the layout pass reports a material-id grand total of 2
although the material sub-regions of the active parts sum to 1 — the loop
advances `mtlOffset` by `materialIndexCount` twice (lines 802 and 808), so
the spec's invariant "sum of per-part region sizes equals the grand total"
fails for the material-id buffer; the vertex and index grand totals do equal
their region sums on the same input. -/
theorem material_total_exceeds_region_sum :
    (rebuildSceneBuffers loaderC1 false [] modelC1).mtlTotal = 2
    ∧ specSumMaterialRegionSizes loaderC1 false modelC1 = 1
    ∧ (rebuildSceneBuffers loaderC1 false [] modelC1).vboTotal = 3
    ∧ (rebuildSceneBuffers loaderC1 false [] modelC1).iboTotal = 3 := by decide

theorem getElem?_take_lt {α : Type} (l : List α) (n i : Nat) (h : i < n) :
    (l.take n)[i]? = l[i]? := by
  rw [List.getElem?_take]
  simp [h]

/-- A record freshly created by the resize (beyond the old table) is zero. -/
theorem resizeDrawParts_getD_new (old : List DrawPart) (n id : Nat)
    (h1 : old.length ≤ id) (h2 : id < n) :
    (resizeDrawParts old n).getD id zeroDrawPart = zeroDrawPart := by
  unfold resizeDrawParts
  rw [List.getD_eq_getElem?_getD, getElem?_take_lt _ _ _ h2,
    List.getElem?_append_right h1, List.getElem?_replicate_of_lt (by omega)]
  rfl

/-- C9 (amended): a layout pass leaves an inactive id's `DrawRegion` exactly
as the resize left it — zero when the record was freshly created by the
resize (id at or beyond the old table's length), and the unchanged previous
record otherwise; it is not rezeroed. -/
theorem inactive_region_left_unchanged (loader : Loader) (drawRenderPart : Bool)
    (oldDrawParts : List DrawPart) (model : List LdrInstance) (id : Nat)
    (hin : (rebuildSceneBuffers loader drawRenderPart oldDrawParts model).activeParts.getD id false
      = false) :
    (rebuildSceneBuffers loader drawRenderPart oldDrawParts model).drawParts.getD id zeroDrawPart
      = (resizeDrawParts oldDrawParts (ldrGetNumRegisteredParts loader)).getD id zeroDrawPart
    ∧ (oldDrawParts.length ≤ id → id < ldrGetNumRegisteredParts loader →
      (rebuildSceneBuffers loader drawRenderPart oldDrawParts model).drawParts.getD id zeroDrawPart
        = zeroDrawPart) := by
  have hmain :
      (rebuildSceneBuffers loader drawRenderPart oldDrawParts model).drawParts.getD id zeroDrawPart
        = (resizeDrawParts oldDrawParts (ldrGetNumRegisteredParts loader)).getD id zeroDrawPart := by
    show ((List.range (ldrGetNumRegisteredParts loader)).foldl
      (fun st i => if (computeActiveParts (ldrGetNumRegisteredParts loader) model).getD i false
        then layoutPartStep drawRenderPart loader st i else st)
      (⟨0, 0, 0, resizeDrawParts oldDrawParts (ldrGetNumRegisteredParts loader)⟩ :
        LayoutState)).drawParts.getD id zeroDrawPart = _
    exact layoutFold_getD_inactive drawRenderPart loader _ _ _ id hin
  exact ⟨hmain, fun h1 h2 => hmain.trans (resizeDrawParts_getD_new _ _ _ h1 h2)⟩

/-- C9 fixture: a stale region record from an earlier pass. -/
def staleDrawPart : DrawPart := ⟨7, 0, 2, 0, 0, 6, 0, 6, 0, 6, 0, 0⟩

/-- C9 fixture loader: one registered part. -/
def loaderC9 : Loader := ⟨[⟨3, 1, 0, 0, false, false, false⟩], [none]⟩

/-- C9 counterexample: a rebuild in which part 0 is inactive (empty instance
list) keeps the stale nonzero record of the previous pass in the table
(`std::vector::resize` keeps existing elements and the loop `continue`s past
inactive ids), so the inactive part's record is not all-zero. -/
theorem inactive_region_not_zeroed :
    (rebuildSceneBuffers loaderC9 false [staleDrawPart] []).activeParts.getD 0 false = false
    ∧ (rebuildSceneBuffers loaderC9 false [staleDrawPart] []).drawParts.getD 0 zeroDrawPart
        = staleDrawPart
    ∧ staleDrawPart ≠ zeroDrawPart := by decide

/-- Witness for C9 (amended) at the same fixture: the inactive record equals
the resized table's record, i.e. the stale value. -/
theorem inactive_region_left_unchanged_witness :
    (rebuildSceneBuffers loaderC9 false [staleDrawPart] []).drawParts.getD 0 zeroDrawPart
      = (resizeDrawParts [staleDrawPart] (ldrGetNumRegisteredParts loaderC9)).getD 0 zeroDrawPart :=
  (inactive_region_left_unchanged loaderC9 false [staleDrawPart] [] 0 (by decide)).1

/-- C5: for a drawn (non-skipped) instance, the tracked winding becomes
counter-clockwise exactly when the transform's determinant is positive, the
front-face command (when present) carries that winding, it is present
exactly when the winding differs from the previously tracked winding, and
every draw of the instance executes under that winding. -/
theorem winding_matches_det (loader : Loader) (dps : List DrawPart) (tweak : Tweak)
    (st : BatchState) (i : Nat) (inst : LdrInstance) (p : LdrPart)
    (h1 : ¬(0 ≤ tweak.instance_ ∧ i ≠ u32ofInt tweak.instance_))
    (h2 : ldrGetPart loader inst.part = some p)
    (h3 : ¬(0 ≤ tweak.part ∧ inst.part ≠ u32ofInt tweak.part)) :
    (drawDebugInstance loader dps tweak st i inst).state.ccw = decide (0 < det4 inst.transform)
    ∧ (∀ b, GLCmd.frontFaceCCW b ∈ (drawDebugInstance loader dps tweak st i inst).cmds →
        b = decide (0 < det4 inst.transform))
    ∧ (GLCmd.frontFaceCCW (decide (0 < det4 inst.transform))
        ∈ (drawDebugInstance loader dps tweak st i inst).cmds
        ↔ st.ccw ≠ decide (0 < det4 inst.transform))
    ∧ (∀ w ∈ windingsAtDraws st.ccw (drawDebugInstance loader dps tweak st i inst).cmds,
        w = decide (0 < det4 inst.transform)) := by
  rw [drawDebugInstance_not_skipped loader dps tweak st i inst p h1 h2 h3]
  obtain ⟨tail, hcmds, htail, hstate⟩ := drawDebugBody_structure loader dps tweak st inst p
  have hnf : ∀ b, GLCmd.frontFaceCCW b ∉ tail := by
    intro b hb
    have := htail _ hb
    simp [isStateCmd] at this
  show (drawDebugBody loader dps tweak st inst p).2.ccw = _
    ∧ (∀ b, GLCmd.frontFaceCCW b ∈ (drawDebugBody loader dps tweak st inst p).1 → _)
    ∧ (GLCmd.frontFaceCCW _ ∈ (drawDebugBody loader dps tweak st inst p).1 ↔ _)
    ∧ (∀ w ∈ windingsAtDraws st.ccw (drawDebugBody loader dps tweak st inst p).1, _)
  rw [hcmds, hstate]
  by_cases hff : st.ccw = decide (0 < det4 inst.transform)
  · have hf2 : ¬(st.ccw ≠ decide (0 < det4 inst.transform)) := not_not_intro hff
    rw [if_neg hf2]
    by_cases hcull : st.cullFace = (!(p.hasNoBackFaceCulling || !tweak.cull))
    · have hc2 : ¬(st.cullFace ≠ (!(p.hasNoBackFaceCulling || !tweak.cull))) := not_not_intro hcull
      rw [if_neg hc2]
      simp only [List.nil_append]
      refine ⟨by trivial, ?_, ?_, ?_⟩
      · intro b hb
        exact absurd hb (hnf b)
      · constructor
        · intro hb
          exact absurd hb (hnf _)
        · intro hne
          exact absurd hff hne
      · intro w hw
        rw [← hff]
        exact windingsAtDraws_no_state st.ccw tail htail w hw
    · rw [if_pos hcull]
      simp only [List.singleton_append, List.nil_append]
      refine ⟨by trivial, ?_, ?_, ?_⟩
      · intro b hb
        rcases List.mem_cons.mp hb with hb | hb
        · exact absurd hb.symm (by simp)
        · exact absurd hb (hnf b)
      · constructor
        · intro hb
          rcases List.mem_cons.mp hb with hb | hb
          · exact absurd hb.symm (by simp)
          · exact absurd hb (hnf _)
        · intro hne
          exact absurd hff hne
      · intro w hw
        rw [show windingsAtDraws st.ccw (GLCmd.cullEnable (!(p.hasNoBackFaceCulling || !tweak.cull))
              :: tail) = windingsAtDraws st.ccw tail from rfl] at hw
        rw [← hff]
        exact windingsAtDraws_no_state st.ccw tail htail w hw
  · rw [if_pos hff]
    by_cases hcull : st.cullFace = (!(p.hasNoBackFaceCulling || !tweak.cull))
    · have hc2 : ¬(st.cullFace ≠ (!(p.hasNoBackFaceCulling || !tweak.cull))) := not_not_intro hcull
      rw [if_neg hc2]
      simp only [List.nil_append, List.singleton_append]
      refine ⟨by trivial, ?_, ?_, ?_⟩
      · intro b hb
        rcases List.mem_cons.mp hb with hb | hb
        · exact (GLCmd.frontFaceCCW.injEq _ _).mp hb
        · exact absurd hb (hnf b)
      · constructor
        · intro _
          exact hff
        · intro _
          exact List.mem_cons_self _ _
      · intro w hw
        rw [show windingsAtDraws st.ccw
              (GLCmd.frontFaceCCW (decide (0 < det4 inst.transform)) :: tail)
            = windingsAtDraws (decide (0 < det4 inst.transform)) tail from rfl] at hw
        exact windingsAtDraws_no_state _ tail htail w hw
    · rw [if_pos hcull]
      simp only [List.singleton_append, List.cons_append, List.nil_append]
      refine ⟨by trivial, ?_, ?_, ?_⟩
      · intro b hb
        rcases List.mem_cons.mp hb with hb | hb
        · exact absurd hb.symm (by simp)
        · rcases List.mem_cons.mp hb with hb | hb
          · exact (GLCmd.frontFaceCCW.injEq _ _).mp hb
          · exact absurd hb (hnf b)
      · constructor
        · intro _
          exact hff
        · intro _
          exact List.mem_cons_of_mem _ (List.mem_cons_self _ _)
      · intro w hw
        rw [show windingsAtDraws st.ccw
              (GLCmd.cullEnable (!(p.hasNoBackFaceCulling || !tweak.cull)) ::
                GLCmd.frontFaceCCW (decide (0 < det4 inst.transform)) :: tail)
            = windingsAtDraws (decide (0 < det4 inst.transform)) tail from rfl] at hw
        exact windingsAtDraws_no_state _ tail htail w hw

/-- Witness loader for C5: one registered part. -/
def loaderW5 : Loader := ⟨[⟨3, 1, 0, 0, false, false, false⟩], [none]⟩

/-- Witness instance for C5: a mirrored transform (determinant `-1`). -/
def instW5 : LdrInstance := ⟨0, 0, mat4Mirror⟩

/-- Witness for C5: a mirrored instance drawn from the initial CCW state
flips the tracked winding to clockwise, and the front-face command is
issued because the winding differs from the tracked one. -/
theorem winding_matches_det_witness :
    (drawDebugInstance loaderW5 [zeroDrawPart] tweakDefault ⟨true, true⟩ 0 instW5).state.ccw
      = decide (0 < det4 instW5.transform)
    ∧ (GLCmd.frontFaceCCW (decide (0 < det4 instW5.transform))
        ∈ (drawDebugInstance loaderW5 [zeroDrawPart] tweakDefault ⟨true, true⟩ 0 instW5).cmds
        ↔ (⟨true, true⟩ : BatchState).ccw ≠ decide (0 < det4 instW5.transform)) :=
  ⟨(winding_matches_det loaderW5 [zeroDrawPart] tweakDefault ⟨true, true⟩ 0 instW5
      ⟨3, 1, 0, 0, false, false, false⟩ (by decide) (by decide) (by decide)).1,
   (winding_matches_det loaderW5 [zeroDrawPart] tweakDefault ⟨true, true⟩ 0 instW5
      ⟨3, 1, 0, 0, false, false, false⟩ (by decide) (by decide) (by decide)).2.2.1⟩

/-- C6: for a drawn (non-skipped) instance, the tracked cull state becomes
disabled exactly when the part's no-back-face-culling flag is set or the
global cull toggle is off, the cull command (when present) carries that
state, it is present exactly when the state differs from the previously
tracked one, and every draw of the instance executes under that state. -/
theorem cull_matches_flags (loader : Loader) (dps : List DrawPart) (tweak : Tweak)
    (st : BatchState) (i : Nat) (inst : LdrInstance) (p : LdrPart)
    (h1 : ¬(0 ≤ tweak.instance_ ∧ i ≠ u32ofInt tweak.instance_))
    (h2 : ldrGetPart loader inst.part = some p)
    (h3 : ¬(0 ≤ tweak.part ∧ inst.part ≠ u32ofInt tweak.part)) :
    (drawDebugInstance loader dps tweak st i inst).state.cullFace
      = (!(p.hasNoBackFaceCulling || !tweak.cull))
    ∧ ((drawDebugInstance loader dps tweak st i inst).state.cullFace = false
        ↔ (p.hasNoBackFaceCulling = true ∨ tweak.cull = false))
    ∧ (∀ b, GLCmd.cullEnable b ∈ (drawDebugInstance loader dps tweak st i inst).cmds →
        b = (!(p.hasNoBackFaceCulling || !tweak.cull)))
    ∧ (GLCmd.cullEnable (!(p.hasNoBackFaceCulling || !tweak.cull))
        ∈ (drawDebugInstance loader dps tweak st i inst).cmds
        ↔ st.cullFace ≠ (!(p.hasNoBackFaceCulling || !tweak.cull)))
    ∧ (∀ c ∈ cullsAtDraws st.cullFace (drawDebugInstance loader dps tweak st i inst).cmds,
        c = (!(p.hasNoBackFaceCulling || !tweak.cull))) := by
  rw [drawDebugInstance_not_skipped loader dps tweak st i inst p h1 h2 h3]
  obtain ⟨tail, hcmds, htail, hstate⟩ := drawDebugBody_structure loader dps tweak st inst p
  have hnc : ∀ b, GLCmd.cullEnable b ∉ tail := by
    intro b hb
    have := htail _ hb
    simp [isStateCmd] at this
  show (drawDebugBody loader dps tweak st inst p).2.cullFace = _
    ∧ ((drawDebugBody loader dps tweak st inst p).2.cullFace = false ↔ _)
    ∧ (∀ b, GLCmd.cullEnable b ∈ (drawDebugBody loader dps tweak st inst p).1 → _)
    ∧ (GLCmd.cullEnable _ ∈ (drawDebugBody loader dps tweak st inst p).1 ↔ _)
    ∧ (∀ c ∈ cullsAtDraws st.cullFace (drawDebugBody loader dps tweak st inst p).1, _)
  rw [hcmds, hstate]
  have hiff : (!(p.hasNoBackFaceCulling || !tweak.cull)) = false
      ↔ (p.hasNoBackFaceCulling = true ∨ tweak.cull = false) := by
    cases p.hasNoBackFaceCulling <;> cases tweak.cull <;> simp
  by_cases hcull : st.cullFace = (!(p.hasNoBackFaceCulling || !tweak.cull))
  · have hc2 : ¬(st.cullFace ≠ (!(p.hasNoBackFaceCulling || !tweak.cull))) := not_not_intro hcull
    rw [if_neg hc2]
    simp only [List.nil_append]
    by_cases hff : st.ccw = decide (0 < det4 inst.transform)
    · have hf2 : ¬(st.ccw ≠ decide (0 < det4 inst.transform)) := not_not_intro hff
      rw [if_neg hf2]
      simp only [List.nil_append]
      refine ⟨by trivial, hiff, ?_, ?_, ?_⟩
      · intro b hb
        exact absurd hb (hnc b)
      · constructor
        · intro hb
          exact absurd hb (hnc _)
        · intro hne
          exact absurd hcull hne
      · intro c hc
        rw [← hcull]
        exact cullsAtDraws_no_state st.cullFace tail htail c hc
    · rw [if_pos hff]
      simp only [List.singleton_append]
      refine ⟨by trivial, hiff, ?_, ?_, ?_⟩
      · intro b hb
        rcases List.mem_cons.mp hb with hb | hb
        · exact absurd hb.symm (by simp)
        · exact absurd hb (hnc b)
      · constructor
        · intro hb
          rcases List.mem_cons.mp hb with hb | hb
          · exact absurd hb.symm (by simp)
          · exact absurd hb (hnc _)
        · intro hne
          exact absurd hcull hne
      · intro c hc
        rw [show cullsAtDraws st.cullFace
              (GLCmd.frontFaceCCW (decide (0 < det4 inst.transform)) :: tail)
            = cullsAtDraws st.cullFace tail from rfl] at hc
        rw [← hcull]
        exact cullsAtDraws_no_state st.cullFace tail htail c hc
  · rw [if_pos hcull]
    simp only [List.singleton_append, List.cons_append]
    by_cases hff : st.ccw = decide (0 < det4 inst.transform)
    · have hf2 : ¬(st.ccw ≠ decide (0 < det4 inst.transform)) := not_not_intro hff
      rw [if_neg hf2]
      simp only [List.nil_append]
      refine ⟨by trivial, hiff, ?_, ?_, ?_⟩
      · intro b hb
        rcases List.mem_cons.mp hb with hb | hb
        · exact (GLCmd.cullEnable.injEq _ _).mp hb
        · exact absurd hb (hnc b)
      · constructor
        · intro _
          exact hcull
        · intro _
          exact List.mem_cons_self _ _
      · intro c hc
        rw [show cullsAtDraws st.cullFace
              (GLCmd.cullEnable (!(p.hasNoBackFaceCulling || !tweak.cull)) :: tail)
            = cullsAtDraws (!(p.hasNoBackFaceCulling || !tweak.cull)) tail from rfl] at hc
        exact cullsAtDraws_no_state _ tail htail c hc
    · rw [if_pos hff]
      refine ⟨by trivial, hiff, ?_, ?_, ?_⟩
      · intro b hb
        rcases List.mem_cons.mp hb with hb | hb
        · exact (GLCmd.cullEnable.injEq _ _).mp hb
        · rcases List.mem_cons.mp hb with hb | hb
          · exact absurd hb.symm (by simp)
          · exact absurd hb (hnc b)
      · constructor
        · intro _
          exact hcull
        · intro _
          exact List.mem_cons_self _ _
      · intro c hc
        have hc2 : c ∈ cullsAtDraws (!(p.hasNoBackFaceCulling || !tweak.cull)) tail := hc
        exact cullsAtDraws_no_state _ tail htail c hc2

/-- Witness loader for C6: one registered part with the
no-back-face-culling flag set. -/
def loaderW6 : Loader := ⟨[⟨3, 1, 0, 0, false, false, true⟩], [none]⟩

/-- Witness instance for C6. -/
def instW6 : LdrInstance := ⟨0, 0, mat4Id⟩

/-- Witness for C6: a part with the no-back-face-culling flag drawn from
the initial culling-enabled state disables culling, and the cull command is
issued because the state differs. -/
theorem cull_matches_flags_witness :
    (drawDebugInstance loaderW6 [zeroDrawPart] tweakDefault ⟨true, true⟩ 0 instW6).state.cullFace
        = false
    ∧ (GLCmd.cullEnable (!((⟨3, 1, 0, 0, false, false, true⟩ : LdrPart).hasNoBackFaceCulling
          || !tweakDefault.cull))
        ∈ (drawDebugInstance loaderW6 [zeroDrawPart] tweakDefault ⟨true, true⟩ 0 instW6).cmds
        ↔ (⟨true, true⟩ : BatchState).cullFace
          ≠ (!((⟨3, 1, 0, 0, false, false, true⟩ : LdrPart).hasNoBackFaceCulling
              || !tweakDefault.cull))) :=
  ⟨((cull_matches_flags loaderW6 [zeroDrawPart] tweakDefault ⟨true, true⟩ 0 instW6
      ⟨3, 1, 0, 0, false, false, true⟩ (by decide) (by decide) (by decide)).2.1).mpr (Or.inl rfl),
   (cull_matches_flags loaderW6 [zeroDrawPart] tweakDefault ⟨true, true⟩ 0 instW6
      ⟨3, 1, 0, 0, false, false, true⟩ (by decide) (by decide) (by decide)).2.2.2.1⟩

theorem filter_ite_singleton {α : Type} (f : α → Bool) (c : Prop) [Decidable c]
    (x : α) (hx : f x = false) :
    List.filter f (if c then [x] else []) = [] := by
  split
  · simp [List.filter, hx]
  · rfl

theorem fillTriangleDraws_append (l1 l2 : List GLCmd) :
    fillTriangleDraws (l1 ++ l2) = fillTriangleDraws l1 ++ fillTriangleDraws l2 := by
  unfold fillTriangleDraws
  rw [List.filter_append]

theorem fillTriangleDraws_debugDraws (dp : DrawPart) (tweak : Tweak) :
    fillTriangleDraws (debugDraws dp tweak) = [] := by
  unfold debugDraws fillTriangleDraws
  rw [List.filter_append, List.filter_append,
    filter_ite_singleton _ _ _ rfl, filter_ite_singleton _ _ _ rfl,
    filter_ite_singleton _ _ _ rfl]
  rfl

/-- The filled-triangle draws of the render-variant branch: exactly one,
gated by the triangles toggle, covering the range selected by
`m_tweak.chamfered && rpart->flags.canChamfer`. -/
theorem fillTriangleDraws_renderDraws (r : LdrRenderPart) (dp : DrawPart) (tweak : Tweak) :
    fillTriangleDraws (renderDraws r dp tweak) =
      (if tweak.triangles then
        [GLCmd.drawTriangles
          ((if tweak.chamfered && r.canChamfer then r.numTrianglesC else r.numTriangles) * 3)
          (if tweak.chamfered && r.canChamfer then dp.triangleOffsetC else dp.triangleOffset)
          dp.vertexOffset
          (if (if tweak.chamfered && r.canChamfer then r.hasMaterialsC
              else r.hasTriangleMaterials) && r.hasComplexMaterial
            then some (if tweak.chamfered && r.canChamfer then dp.materialIDOffsetC
              else dp.materialIDOffset)
            else none)]
      else []) := by
  by_cases ht : tweak.triangles <;> by_cases he : tweak.edges <;>
    by_cases hw : tweak.wireframe <;>
      simp [renderDraws, fillTriangleDraws, ht, he, hw, List.filter]

/-- C3: for a drawn instance with render geometry and the render variant
selected, the batcher issues (at most) one filled-triangle draw, and it
covers the chamfered triangle range, offset and material sub-region exactly
when both the global chamfer toggle and the part's canChamfer flag are set,
and the non-chamfered range otherwise — in particular for
`canChamfer = false` the non-chamfered range is used regardless of the
chamfer toggle. -/
theorem chamfer_range_selection (loader : Loader) (dps : List DrawPart) (tweak : Tweak)
    (st : BatchState) (i : Nat) (inst : LdrInstance) (p : LdrPart) (r : LdrRenderPart)
    (h1 : ¬(0 ≤ tweak.instance_ ∧ i ≠ u32ofInt tweak.instance_))
    (h2 : ldrGetPart loader inst.part = some p)
    (h3 : ¬(0 ≤ tweak.part ∧ inst.part ≠ u32ofInt tweak.part))
    (h4 : tweak.drawRenderPart = true)
    (h5 : ldrGetRenderPart loader inst.part = some r) :
    fillTriangleDraws (drawDebugInstance loader dps tweak st i inst).cmds =
      (if tweak.triangles then
        [GLCmd.drawTriangles
          ((if tweak.chamfered && r.canChamfer then r.numTrianglesC else r.numTriangles) * 3)
          (if tweak.chamfered && r.canChamfer
            then (dps.getD inst.part zeroDrawPart).triangleOffsetC
            else (dps.getD inst.part zeroDrawPart).triangleOffset)
          (dps.getD inst.part zeroDrawPart).vertexOffset
          (if (if tweak.chamfered && r.canChamfer then r.hasMaterialsC
              else r.hasTriangleMaterials) && r.hasComplexMaterial
            then some (if tweak.chamfered && r.canChamfer
              then (dps.getD inst.part zeroDrawPart).materialIDOffsetC
              else (dps.getD inst.part zeroDrawPart).materialIDOffset)
            else none)]
      else []) := by
  rw [drawDebugInstance_not_skipped loader dps tweak st i inst p h1 h2 h3]
  show fillTriangleDraws (drawDebugBody loader dps tweak st inst p).1 = _
  have hbody : (drawDebugBody loader dps tweak st inst p).1 =
      (if st.cullFace ≠ (!(p.hasNoBackFaceCulling || !tweak.cull)) then
        [GLCmd.cullEnable (!(p.hasNoBackFaceCulling || !tweak.cull))] else [])
      ++ ((if st.ccw ≠ decide (0 < det4 inst.transform) then
        [GLCmd.frontFaceCCW (decide (0 < det4 inst.transform))] else [])
      ++ (renderDraws r (dps.getD inst.part zeroDrawPart) tweak
      ++ (if inst.part = u32ofInt tweak.part then
        debugDraws (dps.getD inst.part zeroDrawPart) tweak else []))) := by
    unfold drawDebugBody
    rw [h4, h5]
    simp only [Bool.not_true, Bool.false_eq_true, if_false, List.append_assoc]
  rw [hbody, fillTriangleDraws_append, fillTriangleDraws_append, fillTriangleDraws_append]
  rw [show fillTriangleDraws (if st.cullFace ≠ (!(p.hasNoBackFaceCulling || !tweak.cull)) then
        [GLCmd.cullEnable (!(p.hasNoBackFaceCulling || !tweak.cull))] else []) = []
      from filter_ite_singleton _ _ _ rfl]
  rw [show fillTriangleDraws (if st.ccw ≠ decide (0 < det4 inst.transform) then
        [GLCmd.frontFaceCCW (decide (0 < det4 inst.transform))] else []) = []
      from filter_ite_singleton _ _ _ rfl]
  rw [fillTriangleDraws_renderDraws]
  have hdbg : fillTriangleDraws (if inst.part = u32ofInt tweak.part then
      debugDraws (dps.getD inst.part zeroDrawPart) tweak else []) = [] := by
    split
    · exact fillTriangleDraws_debugDraws _ tweak
    · rfl
  rw [hdbg, List.append_nil, List.nil_append, List.nil_append]

/-- Witness loader for C3: one part whose render variant has distinct
chamfered and non-chamfered ranges but `canChamfer = false`. -/
def loaderW3 : Loader :=
  ⟨[⟨3, 1, 0, 0, false, false, false⟩],
   [some ⟨4, 2, 9, 0, false, false, false, false⟩]⟩

/-- Witness tweak for C3: render variant selected and the global chamfer
toggle ON. -/
def tweakW3 : Tweak :=
  ⟨true, true, false, true, true, true, false, -1, -1, -1, -1, -1, false⟩

/-- Witness instance for C3. -/
def instW3 : LdrInstance := ⟨0, 0, mat4Id⟩

/-- Witness region table for C3, with distinct offsets. -/
def dpsW3 : List DrawPart := [⟨4, 0, 2, 0, 9, 100, 0, 6, 0, 6, 0, 0⟩]

/-- Witness for C3: with the chamfer toggle on but `canChamfer = false`, the
single triangle draw uses the non-chamfered count (2 triangles) and offset
(0), not the chamfered ones. -/
theorem chamfer_range_selection_witness :
    fillTriangleDraws (drawDebugInstance loaderW3 dpsW3 tweakW3 ⟨true, true⟩ 0 instW3).cmds
      = [GLCmd.drawTriangles 6 0 0 none] :=
  (chamfer_range_selection loaderW3 dpsW3 tweakW3 ⟨true, true⟩ 0 instW3
    ⟨3, 1, 0, 0, false, false, false⟩ ⟨4, 2, 9, 0, false, false, false, false⟩
    (by decide) (by decide) (by decide) (by decide) (by decide)).trans (by decide)

theorem layoutPartStep_drawParts_length (drawRenderPart : Bool) (loader : Loader)
    (st : LayoutState) (i : Nat) :
    (layoutPartStep drawRenderPart loader st i).drawParts.length = st.drawParts.length := by
  unfold layoutPartStep
  simp

theorem layoutFold_drawParts_length (drawRenderPart : Bool) (loader : Loader)
    (active : List Bool) (ids : List Nat) (st : LayoutState) :
    ((ids.foldl
      (fun st i => if active.getD i false then layoutPartStep drawRenderPart loader st i else st)
      st).drawParts.length) = st.drawParts.length := by
  induction ids generalizing st with
  | nil => rfl
  | cons a l ih =>
    rw [List.foldl_cons]
    split
    · rw [ih, layoutPartStep_drawParts_length]
    · rw [ih]

theorem resizeDrawParts_length (old : List DrawPart) (n : Nat) :
    (resizeDrawParts old n).length = n := by
  unfold resizeDrawParts
  simp
  omega

/-- The layout fold does not disturb the region record of an id that is
not in the iterated list. -/
theorem layoutFold_getD_not_mem (drawRenderPart : Bool) (loader : Loader)
    (active : List Bool) (ids : List Nat) (st : LayoutState) (id : Nat)
    (h : id ∉ ids) :
    ((ids.foldl
      (fun st i => if active.getD i false then layoutPartStep drawRenderPart loader st i else st)
      st).drawParts.getD id zeroDrawPart) = st.drawParts.getD id zeroDrawPart := by
  induction ids generalizing st with
  | nil => rfl
  | cons a l ih =>
    rw [List.foldl_cons]
    have hal : id ∉ l := fun hmem => h (List.mem_cons_of_mem a hmem)
    have hne : a ≠ id := fun he => h (he ▸ List.mem_cons_self a l)
    split
    · rw [ih _ hal]
      unfold layoutPartStep
      exact getD_set_ne _ _ _ _ _ hne
    · exact ih st hal

/-- An active id in a duplicate-free iteration list ends up with the record
written by its own layout step, run from some intermediate state with a
table of unchanged length. -/
theorem layoutFold_getD_active (drawRenderPart : Bool) (loader : Loader)
    (active : List Bool) (ids : List Nat) (st : LayoutState) (id : Nat)
    (hnd : ids.Nodup) (hmem : id ∈ ids) (hact : active.getD id false = true) :
    ∃ st' : LayoutState, st'.drawParts.length = st.drawParts.length ∧
      ((ids.foldl
        (fun st i => if active.getD i false then layoutPartStep drawRenderPart loader st i else st)
        st).drawParts.getD id zeroDrawPart)
        = (layoutPartStep drawRenderPart loader st' id).drawParts.getD id zeroDrawPart := by
  induction ids generalizing st with
  | nil => exact absurd hmem (List.not_mem_nil id)
  | cons a l ih =>
    rw [List.foldl_cons]
    rcases List.mem_cons.mp hmem with heq | hmem'
    · subst heq
      rw [hact]
      simp only [if_true]
      refine ⟨st, rfl, ?_⟩
      exact layoutFold_getD_not_mem drawRenderPart loader active l _ id
        (List.nodup_cons.mp hnd).1
    · have hnd' : l.Nodup := (List.nodup_cons.mp hnd).2
      split
      · obtain ⟨st', hlen, heq⟩ := ih _ hnd' hmem'
        exact ⟨st', hlen.trans (layoutPartStep_drawParts_length drawRenderPart loader st id ▸
          layoutPartStep_drawParts_length drawRenderPart loader st a), heq⟩
      · exact ih st hnd' hmem'

/-- Every upload produced for part id `i` carries `partId = i`. -/
theorem uploadsForPart_partId (drawRenderPart : Bool) (loader : Loader)
    (dps : List DrawPart) (i : Nat) :
    ∀ u ∈ uploadsForPart drawRenderPart loader dps i, u.partId = i := by
  intro u hu
  unfold uploadsForPart at hu
  split at hu
  · simp only [List.mem_append] at hu
    rcases hu with hu | hu
    · simp only [List.mem_cons, List.not_mem_nil, or_false] at hu
      rcases hu with hu | hu | hu | hu <;> (subst hu; rfl)
    · split at hu
      · simp only [List.mem_singleton] at hu
        subst hu
        rfl
      · simp at hu
  · split at hu
    · simp at hu
    · simp only [List.mem_append] at hu
      rcases hu with (hu | hu) | hu
      · simp only [List.mem_cons, List.not_mem_nil, or_false] at hu
        rcases hu with hu | hu | hu | hu <;> (subst hu; rfl)
      · split at hu
        · simp only [List.mem_singleton] at hu
          subst hu
          rfl
        · simp at hu
      · split at hu
        · simp only [List.mem_singleton] at hu
          subst hu
          rfl
        · simp at hu

/-- Every upload collected by the materializer's fold comes from the
accumulator or from some listed id's upload step. -/
theorem uploadFold_mem (drawRenderPart : Bool) (loader : Loader)
    (active : List Bool) (dps : List DrawPart) (ids : List Nat) (acc : List Upload) :
    ∀ u ∈ (ids.foldl
      (fun acc i => if active.getD i false then
          acc ++ uploadsForPart drawRenderPart loader dps i else acc)
      acc), u ∈ acc ∨ ∃ i ∈ ids, u ∈ uploadsForPart drawRenderPart loader dps i := by
  induction ids generalizing acc with
  | nil => intro u hu; exact Or.inl hu
  | cons a l ih =>
    intro u hu
    rw [List.foldl_cons] at hu
    rcases hu2 : active.getD a false with _ | _
    · rw [hu2] at hu
      simp only [Bool.false_eq_true, if_false] at hu
      rcases ih acc u hu with h | ⟨i, hi, hui⟩
      · exact Or.inl h
      · exact Or.inr ⟨i, List.mem_cons_of_mem a hi, hui⟩
    · rw [hu2] at hu
      simp only [if_true] at hu
      rcases ih _ u hu with h | ⟨i, hi, hui⟩
      · rcases List.mem_append.mp h with h | h
        · exact Or.inl h
        · exact Or.inr ⟨a, List.mem_cons_self a l, h⟩
      · exact Or.inr ⟨i, List.mem_cons_of_mem a hi, hui⟩

/-- C4: when the render variant is selected and a part lacks it, the layout
pass degenerates that part's region to zero counts (rather than failing),
the materializer uploads nothing for it, a drawn instance of it submits no
triangle draw (indeed no geometry draw at all), and the debug-selection
draws are still issued purely from the part's region record, consulting no
render-part data — they no-op against the zero-sized region instead of
faulting. -/
theorem missing_render_variant_degenerates (loader : Loader)
    (oldDrawParts : List DrawPart) (model : List LdrInstance) (tweak : Tweak)
    (dps : List DrawPart) (st : BatchState) (i : Nat) (inst : LdrInstance)
    (p : LdrPart) (id : Nat)
    (h4 : tweak.drawRenderPart = true)
    (hrp : ldrGetRenderPart loader id = none)
    (hid : id < ldrGetNumRegisteredParts loader)
    (hact : (rebuildSceneBuffers loader tweak.drawRenderPart oldDrawParts
      model).activeParts.getD id false = true)
    (hinst : inst.part = id)
    (h1 : ¬(0 ≤ tweak.instance_ ∧ i ≠ u32ofInt tweak.instance_))
    (h2 : ldrGetPart loader inst.part = some p)
    (h3 : ¬(0 ≤ tweak.part ∧ inst.part ≠ u32ofInt tweak.part)) :
    (((rebuildSceneBuffers loader tweak.drawRenderPart oldDrawParts model).drawParts.getD id
        zeroDrawPart).vertexCount = 0
      ∧ ((rebuildSceneBuffers loader tweak.drawRenderPart oldDrawParts model).drawParts.getD id
        zeroDrawPart).triangleCount = 0
      ∧ ((rebuildSceneBuffers loader tweak.drawRenderPart oldDrawParts model).drawParts.getD id
        zeroDrawPart).triangleCountC = 0
      ∧ ((rebuildSceneBuffers loader tweak.drawRenderPart oldDrawParts model).drawParts.getD id
        zeroDrawPart).edgesCount = 0
      ∧ ((rebuildSceneBuffers loader tweak.drawRenderPart oldDrawParts model).drawParts.getD id
        zeroDrawPart).optionalCount = 0)
    ∧ (∀ u ∈ (rebuildSceneBuffers loader tweak.drawRenderPart oldDrawParts model).uploads,
        u.partId ≠ id)
    ∧ fillTriangleDraws (drawDebugInstance loader dps tweak st i inst).cmds = []
    ∧ (drawDebugInstance loader dps tweak st i inst).cmds =
        (if st.cullFace ≠ (!(p.hasNoBackFaceCulling || !tweak.cull)) then
          [GLCmd.cullEnable (!(p.hasNoBackFaceCulling || !tweak.cull))] else [])
        ++ ((if st.ccw ≠ decide (0 < det4 inst.transform) then
          [GLCmd.frontFaceCCW (decide (0 < det4 inst.transform))] else [])
        ++ (if inst.part = u32ofInt tweak.part then
          debugDraws (dps.getD inst.part zeroDrawPart) tweak else [])) := by
  have hcounts : geometryCounts tweak.drawRenderPart loader id = (0, 0, 0, 0, 0) := by
    unfold geometryCounts
    rw [h4, hrp]
    rfl
  have hmats : materialIndexCounts tweak.drawRenderPart loader id = (0, 0) := by
    unfold materialIndexCounts
    rw [h4, hrp]
    rfl
  have hup : uploadsForPart tweak.drawRenderPart loader
      (rebuildSceneBuffers loader tweak.drawRenderPart oldDrawParts model).drawParts id = [] := by
    unfold uploadsForPart
    rw [h4, hrp]
    rfl
  have hbatch : (drawDebugInstance loader dps tweak st i inst).cmds =
      (if st.cullFace ≠ (!(p.hasNoBackFaceCulling || !tweak.cull)) then
        [GLCmd.cullEnable (!(p.hasNoBackFaceCulling || !tweak.cull))] else [])
      ++ ((if st.ccw ≠ decide (0 < det4 inst.transform) then
        [GLCmd.frontFaceCCW (decide (0 < det4 inst.transform))] else [])
      ++ (if inst.part = u32ofInt tweak.part then
        debugDraws (dps.getD inst.part zeroDrawPart) tweak else [])) := by
    rw [drawDebugInstance_not_skipped loader dps tweak st i inst p h1 h2 h3]
    show (drawDebugBody loader dps tweak st inst p).1 = _
    unfold drawDebugBody
    rw [h4, hinst, hrp]
    simp only [Bool.not_true, Bool.false_eq_true, if_false, List.nil_append, List.append_assoc]
  refine ⟨?_, ?_, ?_, hbatch⟩
  · have hfold := layoutFold_getD_active tweak.drawRenderPart loader
      (computeActiveParts (ldrGetNumRegisteredParts loader) model)
      (List.range (ldrGetNumRegisteredParts loader))
      ⟨0, 0, 0, resizeDrawParts oldDrawParts (ldrGetNumRegisteredParts loader)⟩ id
      (List.nodup_range _) (List.mem_range.mpr hid) hact
    obtain ⟨st', hlen, heq⟩ := hfold
    have hgd : (rebuildSceneBuffers loader tweak.drawRenderPart oldDrawParts
        model).drawParts.getD id zeroDrawPart =
        (layoutPartStep tweak.drawRenderPart loader st' id).drawParts.getD id zeroDrawPart := heq
    have hlen' : id < st'.drawParts.length := by
      rw [hlen]
      simp only [resizeDrawParts_length]
      exact hid
    rw [hgd]
    unfold layoutPartStep
    rw [getD_set_self _ _ _ _ hlen', hcounts, hmats]
    exact ⟨rfl, rfl, rfl, rfl, rfl⟩
  · intro u hu
    have hmem := uploadFold_mem tweak.drawRenderPart loader
      (computeActiveParts (ldrGetNumRegisteredParts loader) model)
      (rebuildSceneBuffers loader tweak.drawRenderPart oldDrawParts model).drawParts
      (List.range (ldrGetNumRegisteredParts loader)) [] u hu
    rcases hmem with h | ⟨i', _, hui⟩
    · simp at h
    · intro he
      have hpid := uploadsForPart_partId tweak.drawRenderPart loader _ i' u hui
      rw [he] at hpid
      rw [← hpid] at hui
      rw [hup] at hui
      simp at hui
  · rw [hbatch, fillTriangleDraws_append, fillTriangleDraws_append]
    rw [show fillTriangleDraws (if st.cullFace ≠ (!(p.hasNoBackFaceCulling || !tweak.cull)) then
          [GLCmd.cullEnable (!(p.hasNoBackFaceCulling || !tweak.cull))] else []) = []
        from filter_ite_singleton _ _ _ rfl]
    rw [show fillTriangleDraws (if st.ccw ≠ decide (0 < det4 inst.transform) then
          [GLCmd.frontFaceCCW (decide (0 < det4 inst.transform))] else []) = []
        from filter_ite_singleton _ _ _ rfl]
    have hdbg : fillTriangleDraws (if inst.part = u32ofInt tweak.part then
        debugDraws (dps.getD inst.part zeroDrawPart) tweak else []) = [] := by
      split
      · exact fillTriangleDraws_debugDraws _ tweak
      · rfl
    rw [hdbg]
    rfl

/-- Witness loader for C4: one part with no render variant. -/
def loaderW4 : Loader := ⟨[⟨3, 1, 2, 0, false, false, false⟩], [none]⟩

/-- Witness tweak for C4: render variant selected, part 0 selected with all
debug selections enabled. -/
def tweakW4 : Tweak := ⟨true, true, true, true, false, true, false, -1, 0, 0, 0, 0, false⟩

/-- Witness model for C4. -/
def modelW4 : List LdrInstance := [⟨0, 0, mat4Id⟩]

/-- Witness instance for C4. -/
def instW4 : LdrInstance := ⟨0, 0, mat4Id⟩

/-- Witness for C4: at a concrete one-part model with the render variant
selected but absent, the layout leaves zero counts and the drawn instance
submits no triangle draw. -/
theorem missing_render_variant_degenerates_witness :
    ((rebuildSceneBuffers loaderW4 tweakW4.drawRenderPart [] modelW4).drawParts.getD 0
        zeroDrawPart).vertexCount = 0
    ∧ fillTriangleDraws (drawDebugInstance loaderW4
        (rebuildSceneBuffers loaderW4 tweakW4.drawRenderPart [] modelW4).drawParts
        tweakW4 ⟨true, true⟩ 0 instW4).cmds = [] :=
  ⟨(missing_render_variant_degenerates loaderW4 [] modelW4 tweakW4
      (rebuildSceneBuffers loaderW4 tweakW4.drawRenderPart [] modelW4).drawParts
      ⟨true, true⟩ 0 instW4 ⟨3, 1, 2, 0, false, false, false⟩ 0
      rfl rfl (by decide) (by decide) rfl (by decide) (by decide) (by decide)).1.1,
   (missing_render_variant_degenerates loaderW4 [] modelW4 tweakW4
      (rebuildSceneBuffers loaderW4 tweakW4.drawRenderPart [] modelW4).drawParts
      ⟨true, true⟩ 0 instW4 ⟨3, 1, 2, 0, false, false, false⟩ 0
      rfl rfl (by decide) (by decide) rfl (by decide) (by decide) (by decide)).2.2.1⟩

/-- C10 (amended): the batcher indexes the `DrawPart` table at every
instance's raw part id (recorded in `access`), but commands — and hence any
read of the record's fields — are produced only for instances whose part
fetch succeeded; an instance whose part cannot be fetched (the sentinel, or
any id at or beyond the registered count) contributes no command and leaves
the tracked state unchanged, so commands imply `part id < registered part
count`. -/
theorem region_reads_guarded (loader : Loader) (dps : List DrawPart) (tweak : Tweak)
    (st : BatchState) (i : Nat) (inst : LdrInstance) :
    (drawDebugInstance loader dps tweak st i inst).access = inst.part
    ∧ (ldrGetPart loader inst.part = none →
        (drawDebugInstance loader dps tweak st i inst).cmds = []
        ∧ (drawDebugInstance loader dps tweak st i inst).state = st)
    ∧ ((drawDebugInstance loader dps tweak st i inst).cmds ≠ [] →
        inst.part < ldrGetNumRegisteredParts loader) := by
  refine ⟨rfl, ?_, ?_⟩
  · intro hnone
    unfold drawDebugInstance
    rw [hnone]
    split
    · exact ⟨rfl, rfl⟩
    · exact ⟨rfl, rfl⟩
  · intro hc
    by_contra hge
    have hnone : ldrGetPart loader inst.part = none := by
      unfold ldrGetPart
      apply List.getElem?_eq_none
      unfold ldrGetNumRegisteredParts at hge
      omega
    apply hc
    unfold drawDebugInstance
    rw [hnone]
    split
    · rfl
    · rfl

/-- C10 counterexample loader: one registered part. -/
def loaderC10 : Loader := ⟨[⟨3, 1, 0, 0, false, false, false⟩], [none]⟩

/-- C10 counterexample instance: the sentinel part id. -/
def instC10 : LdrInstance := ⟨LDR_INVALID_ID, 0, mat4Id⟩

/-- C10 counterexample: for a model whose only instance carries the
sentinel part id, the batcher's table-access trace contains the sentinel id
itself — an index not smaller than the registered part count — even though
the instance is skipped (no commands are issued): the table is indexed at
line 967 before the skip check of line 972. -/
theorem region_table_indexed_at_sentinel :
    drawDebugAccesses loaderC10 [zeroDrawPart] tweakDefault [instC10] = [LDR_INVALID_ID]
    ∧ ¬(LDR_INVALID_ID < ldrGetNumRegisteredParts loaderC10)
    ∧ drawDebug loaderC10 [zeroDrawPart] tweakDefault [instC10] = [] := by decide

/-- Witness instance for C10 (amended): again the sentinel id. -/
def instW10 : LdrInstance := ⟨LDR_INVALID_ID, 0, mat4Mirror⟩

/-- Witness for C10 (amended): a sentinel instance is recorded in the
access trace but produces no commands and leaves the state unchanged. -/
theorem region_reads_guarded_witness :
    (drawDebugInstance loaderC10 [zeroDrawPart] tweakDefault ⟨true, true⟩ 0 instW10).access
      = instW10.part
    ∧ (drawDebugInstance loaderC10 [zeroDrawPart] tweakDefault ⟨true, true⟩ 0 instW10).cmds = []
    ∧ (drawDebugInstance loaderC10 [zeroDrawPart] tweakDefault ⟨true, true⟩ 0 instW10).state
      = ⟨true, true⟩ :=
  ⟨(region_reads_guarded loaderC10 [zeroDrawPart] tweakDefault ⟨true, true⟩ 0 instW10).1,
   ((region_reads_guarded loaderC10 [zeroDrawPart] tweakDefault ⟨true, true⟩ 0 instW10).2.1
      (by decide)).1,
   ((region_reads_guarded loaderC10 [zeroDrawPart] tweakDefault ⟨true, true⟩ 0 instW10).2.1
      (by decide)).2⟩

theorem exists_pre_draw (l1 l2 l3 : List FrameEvent)
    (h1 : FrameEvent.draw ∉ l1) (h2 : FrameEvent.draw ∉ l2) (h3 : FrameEvent.draw ∉ l3) :
    ∃ pre, ((l1 ++ l2) ++ l3) ++ [FrameEvent.draw] = pre ++ [FrameEvent.draw]
      ∧ FrameEvent.draw ∉ pre :=
  ⟨(l1 ++ l2) ++ l3, rfl, by simp [h1, h2, h3]⟩

theorem rebuild_mem_ite (c : Prop) [Decidable c] :
    FrameEvent.rebuild ∈ (if c then [FrameEvent.rebuild] else []) ↔ c := by
  split
  · rename_i h
    simp [h]
  · rename_i h
    simp [h]

/-- C7: a frame triggers the full scene-buffer rebuild exactly when a full
reload was requested, the loader configuration differs from its snapshot
(including the threaded-load toggle, compared at line 693), the chamfer
toggle changed, or the render-variant toggle changed (as compared after the
no-render-model forcing of lines 700-701, i.e. against the frame's final
tweak); at frame end both configuration snapshots equal the current
configuration; and the Render Batcher's draw is the frame's final event, so
it runs only after any rebuild of the frame completed. -/
theorem rebuild_iff_config_changed (s : ViewerState) (reload : Bool) :
    (FrameEvent.rebuild ∈ (thinkFrame s reload).2 ↔
      (reload = true
        ∨ s.loaderCreateInfoLast ≠ s.loaderCreateInfo
        ∨ s.tweak.threadedLoad ≠ s.tweakLast.threadedLoad
        ∨ s.tweak.chamfered ≠ s.tweakLast.chamfered
        ∨ (thinkFrame s reload).1.tweak.drawRenderPart ≠ s.tweakLast.drawRenderPart))
    ∧ (thinkFrame s reload).1.loaderCreateInfoLast = (thinkFrame s reload).1.loaderCreateInfo
    ∧ (thinkFrame s reload).1.tweakLast = (thinkFrame s reload).1.tweak
    ∧ ∃ pre, (thinkFrame s reload).2 = pre ++ [FrameEvent.draw]
        ∧ FrameEvent.draw ∉ pre := by
  refine ⟨?_, ?_, rfl, ?_⟩
  · cases reload with
    | true =>
      constructor
      · intro _
        exact Or.inl rfl
      · intro _
        show FrameEvent.rebuild ∈ [FrameEvent.sceneReset, FrameEvent.rebuild] ++ _
        simp
    | false =>
      by_cases hd : s.loaderCreateInfoLast ≠ s.loaderCreateInfo
          ∨ s.tweak.threadedLoad ≠ s.tweakLast.threadedLoad
      · constructor
        · intro _
          rcases hd with hd | hd
          · exact Or.inr (Or.inl hd)
          · exact Or.inr (Or.inr (Or.inl hd))
        · intro _
          show FrameEvent.rebuild ∈ ([] : List FrameEvent) ++ _
          simp only [thinkFrame, resetScenePhase, List.nil_append]
          simp [hd]
      · simp only [thinkFrame, resetScenePhase]
        simp only [Bool.false_eq_true, if_false, List.nil_append, decide_eq_true_eq,
          if_neg hd, apply_ite, ite_self]
        rw [not_or] at hd
        simp only [not_not] at hd
        simp only [hd.1, hd.2, ne_eq, not_true_eq_false, false_or, List.mem_append,
          List.mem_singleton, reduceCtorEq, or_false]
        split
        · rename_i h
          simpa using Iff.intro (fun _ => h) (fun _ => List.mem_cons_self _ _)
        · rename_i h
          simpa using Iff.intro (fun hmem => absurd hmem (by simp)) (fun hc => absurd hc h)
  · simp only [thinkFrame, resetScenePhase]
    split <;> split <;> split <;>
      first
        | rfl
        | (rename_i hnd _
           simp only [decide_eq_true_eq, not_or, not_not] at hnd
           exact hnd.1)
  · simp only [thinkFrame, resetScenePhase]
    split <;> split <;> split <;>
      (refine exists_pre_draw _ _ _ ?_ ?_ ?_ <;> first | simp | (split <;> simp))

/-- Witness configuration for C7. -/
def infoW7 : LdrLoaderCreateInfo := ⟨0, 1, true, true, false, (1 : ℚ) / 5⟩

/-- Witness state for C7: a clean state (both snapshots current). -/
def stateW7 : ViewerState := ⟨tweakDefault, tweakDefault, infoW7, infoW7, true⟩

/-- Witness for C7: a requested reload triggers the rebuild, and the frame
ends with both snapshots equal to the current configuration. -/
theorem rebuild_iff_config_changed_witness :
    FrameEvent.rebuild ∈ (thinkFrame stateW7 true).2
    ∧ (thinkFrame stateW7 true).1.loaderCreateInfoLast
        = (thinkFrame stateW7 true).1.loaderCreateInfo :=
  ⟨(rebuild_iff_config_changed stateW7 true).1.mpr (Or.inl rfl),
   (rebuild_iff_config_changed stateW7 true).2.1⟩

end LdrViewer
